import Mathlib

/-!
# Verification of the arduboy-emu AVR emulator core

A shallow embedding, in Lean 4, of the parts of the `arduboy-core` crate
(`crates/core/src`) that the specification talks about:

* the SREG flag unit and the CPU instruction executor (`cpu.rs`),
* the instruction decoder (`opcodes.rs`),
* the unified data-space memory model (`memory.rs`),
* the peripheral interrupt fabric (`lib.rs`: `update_peripherals`,
  `do_interrupt`) with the Timer8 / Timer16 / Timer4 / SPI / ADC peripherals,
* the W25Q128 FX flash command engine (`peripherals/fx_flash.rs`),
* the 8-bit timer tone derivation (`peripherals/timer8.rs`),
* the Intel HEX loader (`hex.rs`),
* the frame driver PC clamp (`lib.rs`: `run_frame`).

Machine integers are modelled as `Nat` with explicit reduction modulo
`2^8` / `2^16` wherever the Rust code relies on wrapping; Rust's bitwise
mask-and-compare tests are translated into the equivalent `/` and `%`
arithmetic on bit fields, and bit-level boolean algebra on 0/1-valued
`u8` values is translated to `Bool`.  Rust `Vec<u8>` buffers become a
`size` plus a total `Nat → Nat` function; Rust's panicking direct
indexing is modelled by `Option` (with `none` = panic/abort of the host
process), while the emulator's own clamped accessors (`read_raw`,
`write_raw`, `read_program_word`, …) are total, exactly as in the source.
-/

namespace AvrEmu

/-- Reduce to an unsigned byte (Rust `as u8` / `u8` wrapping). -/
def u8 (x : Nat) : Nat := x % 256

/-- Reduce to an unsigned 16-bit word (Rust `as u16` / `u16` wrapping). -/
def u16 (x : Nat) : Nat := x % 65536

/-- Rust `a.wrapping_add(b)` on `u8` values. -/
def wadd8 (a b : Nat) : Nat := (a + b) % 256

/-- Rust `a.wrapping_sub(b)` on `u8` values (both already `< 256`). -/
def wsub8 (a b : Nat) : Nat := (a % 256 + 256 - b % 256) % 256

/-- Rust `a.wrapping_add(b)` on `u16` values. -/
def wadd16 (a b : Nat) : Nat := (a + b) % 65536

/-- Rust `a.wrapping_sub(b)` on `u16` values. -/
def wsub16 (a b : Nat) : Nat := (a % 65536 + 65536 - b % 65536) % 65536

/-- Bit `i` of `x` as a `Nat` (`0` or `1`); Rust `(x >> i) & 1`. -/
def bit (x i : Nat) : Nat := x / 2 ^ i % 2

/-- Bit `i` of `x` as a `Bool`; Rust `x & (1 << i) != 0`. -/
def bitB (x i : Nat) : Bool := x / 2 ^ i % 2 = 1

/-- `Bool` to its 0/1 numeric value (Rust `b as u8`). -/
def b2n (b : Bool) : Nat := if b then 1 else 0

/-- Extract the `width`-bit field of `x` starting at bit `lo`
(the arithmetic reading of Rust `(x >> lo) & ((1 << width) - 1)`). -/
def bits (x lo width : Nat) : Nat := x / 2 ^ lo % 2 ^ width

-- SREG bit positions, from `lib.rs`.
def SREG_C : Nat := 0
def SREG_Z : Nat := 1
def SREG_N : Nat := 2
def SREG_V : Nat := 3
def SREG_S : Nat := 4
def SREG_H : Nat := 5
def SREG_T : Nat := 6
def SREG_I : Nat := 7

-- Data-space addresses of the SREG/SP I/O mirrors, from `lib.rs`.
def SREG_ADDR : Nat := 0x5F
def SPH_ADDR : Nat := 0x5E
def SPL_ADDR : Nat := 0x5D

-- Memory geometry, from `lib.rs`.
def FLASH_SIZE : Nat := 32 * 1024
def DATA_SIZE : Nat := 32 + 224 + (2 * 1024 + 512)
def DATA_SIZE_328P : Nat := 32 + 224 + 2 * 1024
def CLOCK_HZ : Nat := 16000000

/-!
## Byte buffers (`Vec<u8>`)

`size` is the vector length; `get` is total (values beyond `size` are
irrelevant).  `vset` is the unchecked store used where the Rust code
indexes with a provably in-range index; `vsetChecked` models Rust's
panicking `vec[i] = v` for indices that may be out of range
(`none` = index-out-of-bounds panic).
-/

structure ByteBuf where
  size : Nat
  get : Nat → Nat

def ByteBuf.vset (m : ByteBuf) (i v : Nat) : ByteBuf :=
  { m with get := fun j => if j = i then v else m.get j }

/-- Rust `vec[i] = v` where `i` is not known to be in range:
panics (`none`) when `i ≥ size`. -/
def ByteBuf.vsetChecked (m : ByteBuf) (i v : Nat) : Option ByteBuf :=
  if i < m.size then some (m.vset i v) else none

/-!
## Memory (`memory.rs`)

The `Memory` struct: unified data space, flash, EEPROM.  The claims only
exercise `data` and `flash`.
-/

structure Memory where
  data : ByteBuf
  flash : ByteBuf

/-- `Memory::read_raw`: clamped data-space read (0 when out of range). -/
def Memory.read_raw (m : Memory) (addr : Nat) : Nat :=
  if addr < m.data.size then m.data.get addr else 0

/-- `Memory::write_raw`: clamped data-space write (ignored when out of range). -/
def Memory.write_raw (m : Memory) (addr v : Nat) : Memory :=
  if addr < m.data.size then { m with data := m.data.vset addr v } else m

/-- `Memory::reg`: register-file read; the Rust indexes `data[r]` directly,
with `r < 256 ≤ data.len()` for every decoded instruction. -/
def Memory.reg (m : Memory) (r : Nat) : Nat := m.data.get r

/-- `Memory::set_reg`. -/
def Memory.set_reg (m : Memory) (r v : Nat) : Memory :=
  { m with data := m.data.vset r v }

/-- `Memory::reg_pair` (little-endian pair at `24 + 2*pair`). -/
def Memory.reg_pair (m : Memory) (pair : Nat) : Nat :=
  m.data.get (24 + pair * 2) + m.data.get (24 + pair * 2 + 1) * 256

/-- `Memory::set_reg_pair`. -/
def Memory.set_reg_pair (m : Memory) (pair v : Nat) : Memory :=
  ((m.set_reg (24 + pair * 2) (v % 256)).set_reg (24 + pair * 2 + 1) (v / 256 % 256))

/-- `Memory::x` (R26:R27). -/
def Memory.xreg (m : Memory) : Nat := m.data.get 26 + m.data.get 27 * 256

/-- `Memory::y` (R28:R29). -/
def Memory.yreg (m : Memory) : Nat := m.data.get 28 + m.data.get 29 * 256

/-- `Memory::z` (R30:R31). -/
def Memory.zreg (m : Memory) : Nat := m.data.get 30 + m.data.get 31 * 256

/-- `Memory::set_x`. -/
def Memory.set_x (m : Memory) (v : Nat) : Memory :=
  (m.set_reg 26 (v % 256)).set_reg 27 (v / 256 % 256)

/-- `Memory::set_y`. -/
def Memory.set_y (m : Memory) (v : Nat) : Memory :=
  (m.set_reg 28 (v % 256)).set_reg 29 (v / 256 % 256)

/-- `Memory::set_z`. -/
def Memory.set_z (m : Memory) (v : Nat) : Memory :=
  (m.set_reg 30 (v % 256)).set_reg 31 (v / 256 % 256)

/-- `Memory::read_program_word`: little-endian flash word, 0 past the end. -/
def Memory.read_program_word (m : Memory) (word_addr : Nat) : Nat :=
  let byte_addr := word_addr * 2
  if byte_addr + 1 < m.flash.size then
    m.flash.get byte_addr + m.flash.get (byte_addr + 1) * 256
  else 0

/-- `Memory::read_flash_byte`: clamped flash byte read. -/
def Memory.read_flash_byte (m : Memory) (byte_addr : Nat) : Nat :=
  if byte_addr < m.flash.size then m.flash.get byte_addr else 0

/-!
## CPU state (`cpu.rs`)
-/

structure Cpu where
  pc : Nat
  sp : Nat
  sreg : Nat
  tick : Nat
  sleeping : Bool

/-!
## The frame driver PC clamp (`lib.rs`, `run_frame`)

At the top of every non-sleeping loop iteration `run_frame` executes

    let pc_byte = self.cpu.pc as usize * 2;
    if pc_byte >= self.mem.flash.len() { self.cpu.pc = 0; }

before fetching the instruction at `self.cpu.pc`.
-/

def run_frame_fetch_pc (flashLen pc : Nat) : Nat :=
  if pc * 2 ≥ flashLen then 0 else pc

/-!
## W25Q128 FX flash engine (`peripherals/fx_flash.rs`)

`data` is the lazily allocated 16 MiB byte vector: `none` until the first
load/program allocates it (`ensure_data`), after which its length is
exactly `FX_FLASH_SIZE` and reads index modulo that length.
-/

def FX_FLASH_SIZE : Nat := 16 * 1024 * 1024

def JEDEC_MFR : Nat := 0xEF
def JEDEC_TYPE : Nat := 0x40
def JEDEC_CAP : Nat := 0x18

inductive FxState where
  | Idle : FxState
  | ReadAddr (cmd addr_bytes addr : Nat) : FxState
  | ReadDummy (addr : Nat) : FxState
  | Reading (addr : Nat) : FxState
  | JedecId (byte_idx : Nat) : FxState
  | ReleasePD (byte_idx : Nat) : FxState
  | ReadStatus : FxState
  | ProgAddr (addr_bytes addr : Nat) : FxState
  | Programming (addr : Nat) : FxState
  | EraseAddr (addr_bytes addr : Nat) : FxState
deriving DecidableEq

structure FxFlash where
  data : Option (Nat → Nat)
  state : FxState
  loaded : Bool
  write_enabled : Bool
  powered_down : Bool

/-- `FxFlash::deselect`: CS rising edge resets the state machine. -/
def FxFlash.deselect (f : FxFlash) : FxFlash :=
  { f with state := FxState.Idle }

/-- The `FxState::Idle` arm of `FxFlash::transfer`: the incoming byte is
interpreted as a command byte. -/
def FxFlash.idleCommand (f : FxFlash) (mosi : Nat) : FxFlash × Nat :=
  if mosi = 0x03 then
    ({ f with state := FxState.ReadAddr 0x03 0 0 }, 0xFF)
  else if mosi = 0x0B then
    ({ f with state := FxState.ReadAddr 0x0B 0 0 }, 0xFF)
  else if mosi = 0x9F then
    ({ f with state := FxState.JedecId 0 }, 0xFF)
  else if mosi = 0xAB then
    ({ f with powered_down := false, state := FxState.ReleasePD 0 }, 0xFF)
  else if mosi = 0xB9 then
    ({ f with powered_down := true }, 0xFF)
  else if mosi = 0x05 then
    ({ f with state := FxState.ReadStatus }, 0xFF)
  else if mosi = 0x06 then
    ({ f with write_enabled := true }, 0xFF)
  else if mosi = 0x04 then
    ({ f with write_enabled := false }, 0xFF)
  else if mosi = 0x02 then
    ({ f with state := FxState.ProgAddr 0 0 }, 0xFF)
  else if mosi = 0x20 then
    ({ f with state := FxState.EraseAddr 0 0 }, 0xFF)
  else
    (f, 0xFF)

/-- Erase a 4 KiB sector (fill with `0xFF`) inside the data image. -/
def fxErase (g : Nat → Nat) (sector_start sector_end : Nat) : Nat → Nat :=
  fun i => if sector_start ≤ i ∧ i < sector_end then 0xFF else g i

/-- `FxFlash::transfer`: process one SPI byte, return (new engine, MISO). -/
def FxFlash.transfer (f : FxFlash) (mosi : Nat) : FxFlash × Nat :=
  match f.state with
  | FxState.Idle => f.idleCommand mosi
  | FxState.ReadAddr cmd addr_bytes addr =>
      let new_addr := addr * 256 + mosi
      let new_count := addr_bytes + 1
      if new_count ≥ 3 then
        let masked := new_addr % FX_FLASH_SIZE
        if cmd = 0x0B then
          ({ f with state := FxState.ReadDummy masked }, 0xFF)
        else
          ({ f with state := FxState.Reading masked }, 0xFF)
      else
        ({ f with state := FxState.ReadAddr cmd new_count new_addr }, 0xFF)
  | FxState.ReadDummy addr =>
      ({ f with state := FxState.Reading addr }, 0xFF)
  | FxState.Reading addr =>
      let val := match f.data with
        | none => 0xFF
        | some g => g (addr % FX_FLASH_SIZE)
      ({ f with state := FxState.Reading ((addr + 1) % FX_FLASH_SIZE) }, val)
  | FxState.JedecId byte_idx =>
      let val := if byte_idx = 0 then JEDEC_MFR
        else if byte_idx = 1 then JEDEC_TYPE
        else if byte_idx = 2 then JEDEC_CAP
        else 0x00
      ({ f with state := FxState.JedecId (byte_idx + 1) }, val)
  | FxState.ReleasePD byte_idx =>
      let val := if byte_idx ≥ 3 then 0x17 else 0xFF
      ({ f with state := FxState.ReleasePD (byte_idx + 1) }, val)
  | FxState.ReadStatus =>
      (f, b2n f.write_enabled * 2)
  | FxState.ProgAddr addr_bytes addr =>
      let new_addr := addr * 256 + mosi
      let new_count := addr_bytes + 1
      if new_count ≥ 3 then
        ({ f with state := FxState.Programming (new_addr % FX_FLASH_SIZE) }, 0xFF)
      else
        ({ f with state := FxState.ProgAddr new_count new_addr }, 0xFF)
  | FxState.Programming addr =>
      match f.data with
      | some g =>
          if f.write_enabled then
            let g2 := fun i => if i = addr % FX_FLASH_SIZE
              then Nat.land (g (addr % FX_FLASH_SIZE)) mosi else g i
            let page_base := addr / 256 * 256
            let next := page_base + (addr + 1) % 256
            ({ f with data := some g2, state := FxState.Programming next }, 0xFF)
          else (f, 0xFF)
      | none => (f, 0xFF)
  | FxState.EraseAddr addr_bytes addr =>
      let new_addr := addr * 256 + mosi
      let new_count := addr_bytes + 1
      if new_count ≥ 3 then
        let f2 := match f.data with
          | some g =>
              if f.write_enabled then
                let sector_start := new_addr / 4096 * 4096
                let sector_end := min (sector_start + 4096) FX_FLASH_SIZE
                { f with data := some (fxErase g sector_start sector_end) }
              else f
          | none => f
        ({ f2 with write_enabled := false, state := FxState.Idle }, 0xFF)
      else
        ({ f with state := FxState.EraseAddr new_count new_addr }, 0xFF)

/-!
## u32 / u64 wrapping helpers for the timer arithmetic
-/

def U32 : Nat := 4294967296
def U64 : Nat := 18446744073709551616

/-- Rust `a.wrapping_sub(b)` on `u64` values. -/
def wsub64 (a b : Nat) : Nat := (a % U64 + U64 - b % U64) % U64

/-- Rust `u32::saturating_add`. -/
def satAdd32 (a b : Nat) : Nat := min (a + b) (U32 - 1)

/-- Clear bit `i` of the byte `x` (Rust `x & !(1 << i)` on `u8`). -/
def clearBit8 (x i : Nat) : Nat := x % 256 - 2 ^ i * bit (x % 256) i

/-!
## 8-bit Timer/Counter (`peripherals/timer8.rs`)
-/

structure Timer8Addrs where
  tifr : Nat
  tccr_a : Nat
  tccr_b : Nat
  ocr_a : Nat
  ocr_b : Nat
  timsk : Nat
  tcnt : Nat
  int_ovf : Nat
  int_compa : Nat
  int_compb : Nat
  is_timer2 : Bool

structure Timer8 where
  addrs : Timer8Addrs
  tick : Nat
  prescale : Nat
  cs : Nat
  mode : Nat
  wgm00 : Bool
  wgm01 : Bool
  wgm02 : Bool
  com_a : Nat
  com_b : Nat
  ocr0a : Nat
  ocr0b : Nat
  tcnt_shadow : Nat
  tov0 : Nat
  ocf0a : Nat
  ocf0b : Nat
  toie0 : Bool
  ocie0a : Bool
  ocie0b : Bool
  dbg_ovf_count : Nat
  dbg_int_fire_count : Nat

/-- `Timer8::update`: lazily advance the counter by
`(tick - tick_base) / prescaler` increments, accumulating pending
overflow / compare-match counts.  Returns `none` exactly when the Rust
would panic on the direct `data[self.addrs.tcnt] = …` store. -/
def Timer8.update (t : Timer8) (tick : Nat) (data : ByteBuf) :
    Option (Timer8 × ByteBuf) :=
  if t.prescale = 0 then some (t, data) else
  let ticks_since := wsub64 tick t.tick
  let interval := ticks_since / t.prescale % U32
  if interval = 0 then some (t, data) else
  let old_cnt := t.tcnt_shadow % 256
  let new_cnt := (old_cnt + interval) % U32
  let top := if t.mode = 2 ∨ t.mode = 7 then
      (if t.ocr0a % 256 > 0 then t.ocr0a % 256 else 0xFF)
    else 0xFF
  let t2 :=
    if top > 0 then
      let overflows := new_cnt / (top + 1)
      let remainder := new_cnt % (top + 1)
      let t2 :=
        if overflows > 0 then
          let t2 := { t with dbg_ovf_count := (t.dbg_ovf_count + overflows) % U32 }
          let t2 := if t.mode = 2 ∨ t.mode = 7 then
              { t2 with ocf0a := satAdd32 t2.ocf0a overflows } else t2
          let t2 := if t.mode ≠ 2 then
              { t2 with tov0 := satAdd32 t2.tov0 overflows } else t2
          if t.ocr0b % 256 > 0 ∧ remainder ≥ t.ocr0b % 256 ∧ old_cnt < t.ocr0b % 256 then
            { t2 with ocf0b := satAdd32 t2.ocf0b 1 } else t2
        else
          let t2 := if old_cnt < t.ocr0a % 256 ∧ new_cnt ≥ t.ocr0a % 256 ∧ t.ocr0a % 256 > 0
            then { t with ocf0a := satAdd32 t.ocf0a 1 } else t
          if old_cnt < t.ocr0b % 256 ∧ new_cnt ≥ t.ocr0b % 256 ∧ t.ocr0b % 256 > 0
            then { t2 with ocf0b := satAdd32 t2.ocf0b 1 } else t2
      { t2 with tcnt_shadow := remainder % 256 }
    else { t with tcnt_shadow := new_cnt % 256 }
  match data.vsetChecked t.addrs.tcnt t2.tcnt_shadow with
  | none => none
  | some d2 => some ({ t2 with tick := (t.tick + interval * t.prescale) % U64 }, d2)

/-- `Timer8::check_interrupt`: fire the highest-priority pending enabled
interrupt (COMPA > COMPB > OVF) and decrement its pending count. -/
def Timer8.check_interrupt (t : Timer8) : Timer8 × Option Nat :=
  if t.ocf0a > 0 ∧ t.ocie0a then
    ({ t with ocf0a := t.ocf0a - 1,
              dbg_int_fire_count := (t.dbg_int_fire_count + 1) % U32 },
     some t.addrs.int_compa)
  else if t.ocf0b > 0 ∧ t.ocie0b then
    ({ t with ocf0b := t.ocf0b - 1,
              dbg_int_fire_count := (t.dbg_int_fire_count + 1) % U32 },
     some t.addrs.int_compb)
  else if t.tov0 > 0 ∧ t.toie0 then
    ({ t with tov0 := t.tov0 - 1,
              dbg_int_fire_count := (t.dbg_int_fire_count + 1) % U32 },
     some t.addrs.int_ovf)
  else (t, none)

/-- `Timer8::get_tone_hz`: output frequency of CTC mode with
toggle-on-compare-match, `f_clk / (2 · prescaler · (1 + OCR0A))`.

The Rust computes this in `f32`; all operands (`clock ≤ 16 MHz < 2^24`,
`prescaler ≤ 1024`, `OCR0A + 1 ≤ 256`) are exactly representable, and we
model the final quotient exactly in `ℚ`. -/
def Timer8.get_tone_hz (t : Timer8) (clock : Nat) : ℚ :=
  if t.prescale = 0 ∨ t.com_a ≠ 1 then 0
  else if t.mode ≠ 2 then 0
  else if t.ocr0a % 256 = 0 then 0
  else (clock : ℚ) / (2 * (t.prescale : ℚ) * ((t.ocr0a % 256 : Nat) + 1))

/-!
## 16-bit Timer/Counter (`peripherals/timer16.rs`)
-/

structure Timer16 where
  tifr : Nat
  tccr_a : Nat
  tccr_b : Nat
  tccr_c : Nat
  tcnth_addr : Nat
  tcntl_addr : Nat
  tick : Nat
  prescale : Nat
  tcnt : Nat
  top : Nat
  ctc : Bool
  cs : Nat
  com_a : Nat
  com_b : Nat
  com_c : Nat
  ocr_a : Nat
  ocr_b : Nat
  ocr_c : Nat
  foc_a : Bool
  foc_b : Bool
  foc_c : Bool
  tov : Nat
  ocf_a : Nat
  ocf_b : Nat
  ocf_c : Nat
  toie : Bool
  ocie_a : Bool
  ocie_b : Bool
  ocie_c : Bool
  int_ov : Nat
  int_compa : Nat
  int_compb : Nat
  int_compc : Nat
  old_wgm : Nat

/-- `Timer16::do_update` (the pure part of `update`).  `top` is never 0 by
construction of `update_state` (it is one of 0xFF/0x1FF/0x3FF/0xFFFF). -/
def Timer16.do_update (t : Timer16) (tick : Nat) : Timer16 :=
  if t.prescale = 0 then t else
  let ticks_since := wsub64 tick t.tick
  let interval := ticks_since / t.prescale % U32
  if interval = 0 then t else
  let old_tcnt := t.tcnt % 65536
  let cnt := (old_tcnt + interval) % U32
  let t2 := { t with tcnt := cnt % 65536,
                     tick := (t.tick + interval * t.prescale) % U64 }
  let t2 :=
    if t.ocie_a ∧ old_tcnt < t.ocr_a % 65536 ∧ cnt % 65536 ≥ t.ocr_a % 65536 then
      let t3 := { t2 with ocf_a := (t2.ocf_a + 1) % U32 }
      if t.ctc ∧ ¬ t.foc_a then { t3 with tcnt := 0 } else t3
    else t2
  let t2 :=
    if t.ocie_b ∧ old_tcnt < t.ocr_b % 65536 ∧ cnt % 65536 ≥ t.ocr_b % 65536 then
      { t2 with ocf_b := (t2.ocf_b + 1) % U32 }
    else t2
  let t2 :=
    if t.ocie_c ∧ old_tcnt < t.ocr_c % 65536 ∧ cnt % 65536 ≥ t.ocr_c % 65536 then
      { t2 with ocf_c := (t2.ocf_c + 1) % U32 }
    else t2
  { t2 with tov := (t2.tov + min (cnt / (t.top % 65536)) 1) % U32 }

/-- `Timer16::update`: advance, then mirror TCNT into the data space
(direct indexed stores; `none` = panic). -/
def Timer16.update (t : Timer16) (tick : Nat) (data : ByteBuf) :
    Option (Timer16 × ByteBuf) :=
  let t2 := t.do_update tick
  match data.vsetChecked t.tcnth_addr (t2.tcnt % 65536 / 256) with
  | none => none
  | some d1 =>
    match d1.vsetChecked t.tcntl_addr (t2.tcnt % 256) with
    | none => none
    | some d2 => some (t2, d2)

/-- `Timer16::check_interrupt` (COMPA > COMPB > COMPC > OVF; clears the
fired flag count to zero). -/
def Timer16.check_interrupt (t : Timer16) : Timer16 × Option Nat :=
  if t.ocf_a > 0 ∧ t.ocie_a ∧ ¬ t.foc_a then
    ({ t with ocf_a := 0 }, some t.int_compa)
  else if t.ocf_b > 0 ∧ t.ocie_b ∧ ¬ t.foc_b then
    ({ t with ocf_b := 0 }, some t.int_compb)
  else if t.ocf_c > 0 ∧ t.ocie_c ∧ ¬ t.foc_c then
    ({ t with ocf_c := 0 }, some t.int_compc)
  else if t.tov > 0 ∧ t.toie then
    ({ t with tov := 0 }, some t.int_ov)
  else (t, none)

/-!
## Timer4 (`peripherals/timer4.rs`, ATmega32u4 only)
-/

def INT_TIMER4_OVF : Nat := 0x0048
def INT_TIMER4_COMPA : Nat := 0x004A
def INT_TIMER4_COMPB : Nat := 0x004C
def INT_TIMER4_COMPD : Nat := 0x004E

structure Timer4 where
  tick : Nat
  prescale : Nat
  cs : Nat
  wgm : Nat
  tccr_a : Nat
  tcnt : Nat
  tc4h : Nat
  ocr_a : Nat
  ocr_b : Nat
  ocr_c : Nat
  ocr_d : Nat
  timsk : Nat
  tov : Nat
  ocf_a : Nat
  ocf_b : Nat
  ocf_d : Nat

/-- `Timer4::get_top`. -/
def Timer4.get_top (t : Timer4) : Nat :=
  if t.wgm % 4 = 0 then 0x3FF else t.ocr_c % 65536

/-- One iteration of the `Timer4::update` counting loop. -/
def Timer4.tickOnce (t : Timer4) : Timer4 :=
  let tcnt := (t.tcnt + 1) % 1024
  let t2 := { t with tcnt := tcnt }
  let t2 := if tcnt = t.ocr_a % 65536 then { t2 with ocf_a := (t2.ocf_a + 1) % U32 } else t2
  let t2 := if tcnt = t.ocr_b % 65536 then { t2 with ocf_b := (t2.ocf_b + 1) % U32 } else t2
  let t2 := if tcnt = t.ocr_d % 65536 then { t2 with ocf_d := (t2.ocf_d + 1) % U32 } else t2
  if tcnt ≥ t.get_top then
    { t2 with tcnt := 0, tov := (t2.tov + 1) % U32 }
  else t2

/-- Iterate `Timer4.tickOnce` `n` times. -/
def Timer4.tickN (t : Timer4) : Nat → Timer4
  | 0 => t
  | n + 1 => (t.tickOnce).tickN n

/-- `Timer4::update`: count `min(elapsed / prescaler, 2048)` increments. -/
def Timer4.update (t : Timer4) (current_tick : Nat) : Timer4 :=
  if t.prescale = 0 then t else
  let elapsed := current_tick % U64 - t.tick % U64
  let timer_ticks := elapsed / t.prescale
  if timer_ticks = 0 then t else
  let t2 := { t with tick := (t.tick + timer_ticks * t.prescale) % U64 }
  t2.tickN (min timer_ticks 2048)

/-- `Timer4::check_interrupt` (COMPA > COMPB > COMPD > OVF, gated on
TIMSK4 bits 6/5/7/2). -/
def Timer4.check_interrupt (t : Timer4) : Timer4 × Option Nat :=
  if t.ocf_a > 0 ∧ bitB (t.timsk % 256) 6 then
    ({ t with ocf_a := t.ocf_a - 1 }, some INT_TIMER4_COMPA)
  else if t.ocf_b > 0 ∧ bitB (t.timsk % 256) 5 then
    ({ t with ocf_b := t.ocf_b - 1 }, some INT_TIMER4_COMPB)
  else if t.ocf_d > 0 ∧ bitB (t.timsk % 256) 7 then
    ({ t with ocf_d := t.ocf_d - 1 }, some INT_TIMER4_COMPD)
  else if t.tov > 0 ∧ bitB (t.timsk % 256) 2 then
    ({ t with tov := t.tov - 1 }, some INT_TIMER4_OVF)
  else (t, none)

/-!
## SPI controller and ADC (`peripherals/spi.rs`, `peripherals/adc.rs`)
-/

def INT_SPI : Nat := 0x0030
def INT_ADC : Nat := 0x003A

structure Spi where
  spif : Bool
  wcol : Bool
  spi2x : Bool
  spie : Bool
  spe : Bool

/-- `Spi::check_interrupt`. -/
def Spi.check_interrupt (s : Spi) : Spi × Option Nat :=
  if s.spif ∧ s.spie then ({ s with spif := false }, some INT_SPI)
  else (s, none)

structure Adc where
  aden : Bool
  adsc : Bool
  adie : Bool
  adif : Bool
  adch : Nat
  adcl : Nat

/-- The xorshift32 PRNG from `adc.rs` (`u32` state, returns one byte). -/
def xorshift (s : Nat) : Nat × Nat :=
  let s1 := Nat.xor (s % U32) (s % U32 * 8192 % U32)
  let s2 := Nat.xor s1 (s1 / 131072)
  let s3 := Nat.xor s2 (s2 * 32 % U32) % U32
  (s3, s3 % 256)

/-- `Adc::update`. -/
def Adc.update (a : Adc) (rng : Nat) : Adc × Nat :=
  if a.aden ∧ a.adie then
    let (r1, hi) := xorshift rng
    let (r2, lo) := xorshift r1
    ({ a with adif := true, adsc := false, adch := hi, adcl := lo }, r2)
  else (a, rng)

/-- `Adc::check_interrupt`. -/
def Adc.check_interrupt (a : Adc) : Adc × Option Nat :=
  if a.adif ∧ a.adie then ({ a with adif := false }, some INT_ADC)
  else (a, none)

/-!
## Interrupt entry and dispatch (`lib.rs`)
-/

inductive CpuType where
  | Atmega32u4 : CpuType
  | Atmega328p : CpuType
deriving DecidableEq

def INT_328P_USART_RX : Nat := 0x0024
def INT_328P_USART_UDRE : Nat := 0x0026
def INT_328P_USART_TX : Nat := 0x0028

/-- `Arduboy::do_interrupt`: push the current PC (high byte at SP, low
byte at SP−1 — the same order as `push_word`/CALL), mirror SPH/SPL,
clear the I flag and its 0x5F mirror, jump to the vector, charge 5
cycles.

The return-address stores index `self.mem.data[self.cpu.sp]` **directly**
(not through the clamped `write_raw`), so they panic — `none` — whenever
SP or SP−1 is outside the data space. -/
def do_interrupt (cpu : Cpu) (data : ByteBuf) (vector : Nat) :
    Option (Cpu × ByteBuf) :=
  let pc := cpu.pc % 65536
  Option.bind (data.vsetChecked (cpu.sp % 65536) (pc / 256)) fun d1 =>
  let sp1 := wsub16 cpu.sp 1
  Option.bind (d1.vsetChecked sp1 (pc % 256)) fun d2 =>
  let sp2 := wsub16 sp1 1
  Option.bind (d2.vsetChecked SPH_ADDR (sp2 / 256)) fun d3 =>
  Option.bind (d3.vsetChecked SPL_ADDR (sp2 % 256)) fun d4 =>
  let sreg2 := cpu.sreg % 256 % 128
  Option.bind (d4.vsetChecked SREG_ADDR sreg2) fun d5 =>
  some ({ cpu with sp := sp2, sreg := sreg2, pc := vector % 65536,
                   tick := (cpu.tick + 5) % U64 }, d5)

/-- Projection of the `Arduboy` system onto the state touched by
`update_peripherals` / `do_interrupt`: CPU, data space, the timers, SPI,
ADC, the xorshift state and the CPU type.  (`flush_spi`, called at the
top of `update_peripherals`, only drains the buffered SPI bytes into the
display controllers / FX auto-detection fields and never writes any of
these fields, so on this projection it is the identity.) -/
structure System where
  cpu : Cpu
  data : ByteBuf
  timer0 : Timer8
  timer1 : Timer16
  timer3 : Timer16
  timer4 : Timer4
  timer2 : Timer8
  spi : Spi
  adc : Adc
  rng_state : Nat
  cpu_type : CpuType

/-- The dispatch statement sequence shared by every arm of
`update_peripherals`:
`self.cpu.sleeping = false; self.do_interrupt(vec); return;`. -/
def System.dispatch (s : System) (vec : Nat) : Option (System × Option Nat) :=
  let s := { s with cpu := { s.cpu with sleeping := false } }
  match do_interrupt s.cpu s.data vec with
  | none => none
  | some (c2, d2) => some ({ s with cpu := c2, data := d2 }, some vec)

/-- Chain two `update_peripherals` segments: a panic (`none`) or a
dispatched interrupt (`some vec`, the Rust `return`) short-circuits. -/
def tryChain (r : Option (System × Option Nat))
    (next : System → Option (System × Option Nat)) :
    Option (System × Option Nat) :=
  match r with
  | none => none
  | some (s, some v) => some (s, some v)
  | some (s, none) => next s

/-- The Timer0 segment of `update_peripherals`. -/
def System.stepTimer0 (ie : Bool) (tick : Nat) (s : System) :
    Option (System × Option Nat) :=
  match s.timer0.update tick s.data with
  | none => none
  | some (t, d) =>
  let s1 := { s with timer0 := t, data := d }
  if ie then
    let (tc, v?) := s1.timer0.check_interrupt
    let s2 := { s1 with timer0 := tc }
    match v? with
    | some vec => s2.dispatch vec
    | none => some (s2, none)
  else some (s1, none)

/-- The Timer1 segment of `update_peripherals`. -/
def System.stepTimer1 (ie : Bool) (tick : Nat) (s : System) :
    Option (System × Option Nat) :=
  match s.timer1.update tick s.data with
  | none => none
  | some (t, d) =>
  let s1 := { s with timer1 := t, data := d }
  if ie then
    let (tc, v?) := s1.timer1.check_interrupt
    let s2 := { s1 with timer1 := tc }
    match v? with
    | some vec => s2.dispatch vec
    | none => some (s2, none)
  else some (s1, none)

/-- The Timer3 segment (ATmega32u4 only). -/
def System.stepTimer3 (ie : Bool) (tick : Nat) (s : System) :
    Option (System × Option Nat) :=
  if s.cpu_type = CpuType.Atmega32u4 then
    match s.timer3.update tick s.data with
    | none => none
    | some (t, d) =>
    let s1 := { s with timer3 := t, data := d }
    if ie then
      let (tc, v?) := s1.timer3.check_interrupt
      let s2 := { s1 with timer3 := tc }
      match v? with
      | some vec => s2.dispatch vec
      | none => some (s2, none)
    else some (s1, none)
  else some (s, none)

/-- The Timer4 segment (ATmega32u4 only). -/
def System.stepTimer4 (ie : Bool) (tick : Nat) (s : System) :
    Option (System × Option Nat) :=
  if s.cpu_type = CpuType.Atmega32u4 then
    let t := s.timer4.update tick
    let s1 := { s with timer4 := t }
    if ie then
      let (tc, v?) := s1.timer4.check_interrupt
      let s2 := { s1 with timer4 := tc }
      match v? with
      | some vec => s2.dispatch vec
      | none => some (s2, none)
    else some (s1, none)
  else some (s, none)

/-- The Timer2 segment (ATmega328P only). -/
def System.stepTimer2 (ie : Bool) (tick : Nat) (s : System) :
    Option (System × Option Nat) :=
  if s.cpu_type = CpuType.Atmega328p then
    match s.timer2.update tick s.data with
    | none => none
    | some (t, d) =>
    let s1 := { s with timer2 := t, data := d }
    if ie then
      let (tc, v?) := s1.timer2.check_interrupt
      let s2 := { s1 with timer2 := tc }
      match v? with
      | some vec => s2.dispatch vec
      | none => some (s2, none)
    else some (s1, none)
  else some (s, none)

/-- The SPI segment. -/
def System.stepSpi (ie : Bool) (s : System) : Option (System × Option Nat) :=
  if ie then
    let (pc, v?) := s.spi.check_interrupt
    let s2 := { s with spi := pc }
    match v? with
    | some vec => s2.dispatch vec
    | none => some (s2, none)
  else some (s, none)

/-- The USART0 segment (ATmega328P only): UDRE, then TX-complete (which
additionally auto-clears TXC0), then RX-complete. -/
def System.stepUsart (ie : Bool) (s : System) : Option (System × Option Nat) :=
  if ie ∧ s.cpu_type = CpuType.Atmega328p then
    let ucsr0a := s.data.get 0xC0
    let ucsr0b := s.data.get 0xC1
    if bitB (ucsr0b % 256) 5 ∧ bitB (ucsr0a % 256) 5 then
      s.dispatch INT_328P_USART_UDRE
    else if bitB (ucsr0b % 256) 6 ∧ bitB (ucsr0a % 256) 6 then
      match s.data.vsetChecked 0xC0 (clearBit8 ucsr0a 6) with
      | none => none
      | some d2 => System.dispatch { s with data := d2 } INT_328P_USART_TX
    else if bitB (ucsr0b % 256) 7 ∧ bitB (ucsr0a % 256) 7 then
      s.dispatch INT_328P_USART_RX
    else some (s, none)
  else some (s, none)

/-- The ADC segment: `adc.update` runs unconditionally, the interrupt
check only under `ie`. -/
def System.stepAdc (ie : Bool) (s : System) : Option (System × Option Nat) :=
  let (a, r) := s.adc.update s.rng_state
  let s1 := { s with adc := a, rng_state := r }
  if ie then
    let (ac, v?) := s1.adc.check_interrupt
    let s2 := { s1 with adc := ac }
    match v? with
    | some vec => s2.dispatch vec
    | none => some (s2, none)
  else some (s1, none)

/-- `Arduboy::update_peripherals`: flush SPI (identity on this
projection), then advance each peripheral in priority order
(timer0 → timer1 → timer3 → timer4 → timer2 → SPI → USART → ADC) and
dispatch the first pending enabled interrupt if the global
interrupt-enable flag was set on entry.

Returns `none` on a panic, otherwise the new system together with the
dispatched vector (if any). -/
def System.update_peripherals (s : System) : Option (System × Option Nat) :=
  let ie := bitB (s.cpu.sreg % 256) SREG_I
  let tick := s.cpu.tick
  tryChain (s.stepTimer0 ie tick) (fun s =>
    tryChain (s.stepTimer1 ie tick) (fun s =>
      tryChain (s.stepTimer3 ie tick) (fun s =>
        tryChain (s.stepTimer4 ie tick) (fun s =>
          tryChain (s.stepTimer2 ie tick) (fun s =>
            tryChain (s.stepSpi ie) (fun s =>
              tryChain (s.stepUsart ie) (fun s =>
                s.stepAdc ie)))))))

/-!
## Instruction set (`opcodes.rs`)

The `Instruction` enum with its decoded operands.  Register/immediate
fields are `Nat` (`u8` in Rust), branch offsets are `Int` (`i16`/`i8`),
`Jmp`/`Call`/`Lds`/`Sts` addresses are `Nat` (`u32`/`u16`).
-/

inductive Instruction where
  | Nop
  | Add (d r : Nat) | Adc (d r : Nat) | Sub (d r : Nat) | Subi (d k : Nat)
  | Sbc (d r : Nat) | Sbci (d k : Nat) | And (d r : Nat) | Andi (d k : Nat)
  | Or (d r : Nat) | Ori (d k : Nat) | Eor (d r : Nat)
  | Com (d : Nat) | Neg (d : Nat) | Inc (d : Nat) | Dec (d : Nat)
  | Mul (d r : Nat) | Muls (d r : Nat) | Mulsu (d r : Nat)
  | Fmul (d r : Nat) | Fmuls (d r : Nat)
  | Adiw (d k : Nat) | Sbiw (d k : Nat)
  | Cp (d r : Nat) | Cpc (d r : Nat) | Cpi (d k : Nat)
  | Mov (d r : Nat) | Movw (d r : Nat) | Ldi (d k : Nat)
  | Lds (d k : Nat) | Sts (k r : Nat)
  | LdX (d : Nat) | LdXInc (d : Nat) | LdXDec (d : Nat)
  | LdY (d : Nat) | LdYInc (d : Nat) | LdYDec (d : Nat) | LdYQ (d q : Nat)
  | LdZ (d : Nat) | LdZInc (d : Nat) | LdZDec (d : Nat) | LdZQ (d q : Nat)
  | StX (r : Nat) | StXInc (r : Nat) | StXDec (r : Nat)
  | StY (r : Nat) | StYInc (r : Nat) | StYDec (r : Nat) | StYQ (r q : Nat)
  | StZ (r : Nat) | StZInc (r : Nat) | StZDec (r : Nat) | StZQ (r q : Nat)
  | Push (r : Nat) | Pop (d : Nat)
  | Lsr (d : Nat) | Asr (d : Nat) | Ror (d : Nat) | Swap (d : Nat)
  | Bst (d b : Nat) | Bld (d b : Nat) | Sbi (a b : Nat) | Cbi (a b : Nat)
  | Rjmp (k : Int) | Rcall (k : Int) | Ret | Reti
  | Jmp (k : Nat) | Call (k : Nat) | Ijmp | Icall
  | Cpse (d r : Nat) | Sbrc (r b : Nat) | Sbrs (r b : Nat)
  | Sbic (a b : Nat) | Sbis (a b : Nat)
  | Brbs (s : Nat) (k : Int) | Brbc (s : Nat) (k : Int)
  | In_ (d a : Nat) | Out_ (a r : Nat)
  | Lpm0 | LpmD (d : Nat) | LpmDInc (d : Nat)
  | Elpm0 | ElpmD (d : Nat) | ElpmDInc (d : Nat)
  | Sei | Cli | Sec | Clc | Sen | Cln | Sez | Clz
  | Sev | Clv | Ses | Cls | Seh | Clh | SetT | Clt
  | Sleep | Wdr
  | Unknown (w : Nat)

namespace Decode

/-- `decode_5_5`: 5-bit d, 5-bit r from `xxxx xxrd dddd rrrr`. -/
def decode_5_5 (w : Nat) : Nat × Nat :=
  (bits w 4 5, w % 16 + bit w 9 * 16)

/-- `decode_4_8`: 4-bit d, 8-bit K from `xxxx KKKK dddd KKKK`. -/
def decode_4_8 (w : Nat) : Nat × Nat :=
  (bits w 4 4, bits w 8 4 * 16 + w % 16)

/-- `sign_extend_12`. -/
def sign_extend_12 (v : Nat) : Int :=
  if v % 4096 ≥ 2048 then (v % 4096 : Int) - 4096 else (v % 4096 : Int)

/-- Sign-extend a 7-bit branch offset (`((k as i16) << 9 >> 9) as i8`). -/
def sign_extend_7 (v : Nat) : Int :=
  if v % 128 ≥ 64 then (v % 128 : Int) - 128 else (v % 128 : Int)

/-- The `decode_1001` helper: instructions with upper nibble `1001`.
Mask tests are written as equalities on the bit fields the mask selects,
e.g. `word & 0xFE00 == 0x9400` becomes `bits w 9 7 = 0x4A`. -/
def decode_1001 (w : Nat) : Instruction × Nat :=
  let d_r := bits w 4 5
  -- 1001 010d dddd xxxx (COM/NEG/SWAP/INC/ASR/LSR/ROR/DEC)
  if bits w 9 7 = 0x4A ∧ w % 16 = 0x0 then (Instruction.Com d_r, 1)
  else if bits w 9 7 = 0x4A ∧ w % 16 = 0x1 then (Instruction.Neg d_r, 1)
  else if bits w 9 7 = 0x4A ∧ w % 16 = 0x2 then (Instruction.Swap d_r, 1)
  else if bits w 9 7 = 0x4A ∧ w % 16 = 0x3 then (Instruction.Inc d_r, 1)
  else if bits w 9 7 = 0x4A ∧ w % 16 = 0x5 then (Instruction.Asr d_r, 1)
  else if bits w 9 7 = 0x4A ∧ w % 16 = 0x6 then (Instruction.Lsr d_r, 1)
  else if bits w 9 7 = 0x4A ∧ w % 16 = 0x7 then (Instruction.Ror d_r, 1)
  else if bits w 9 7 = 0x4A ∧ w % 16 = 0xA then (Instruction.Dec d_r, 1)
  -- ADIW: 1001 0110 KKdd KKKK
  else if bits w 8 8 = 0x96 then
    (Instruction.Adiw (bits w 4 2 * 2 + 24) (bits w 6 2 * 16 + w % 16), 1)
  -- SBIW: 1001 0111 KKdd KKKK
  else if bits w 8 8 = 0x97 then
    (Instruction.Sbiw (bits w 4 2 * 2 + 24) (bits w 6 2 * 16 + w % 16), 1)
  -- CBI/SBIC/SBI/SBIS: 1001 10xx AAAA Abbb (I/O addr converted to data space)
  else if bits w 8 8 = 0x98 then (Instruction.Cbi (bits w 3 5 + 0x20) (w % 8), 1)
  else if bits w 8 8 = 0x99 then (Instruction.Sbic (bits w 3 5 + 0x20) (w % 8), 1)
  else if bits w 8 8 = 0x9A then (Instruction.Sbi (bits w 3 5 + 0x20) (w % 8), 1)
  else if bits w 8 8 = 0x9B then (Instruction.Sbis (bits w 3 5 + 0x20) (w % 8), 1)
  -- MUL: 1001 11rd dddd rrrr
  else if bits w 10 6 = 0x27 then
    let dr := decode_5_5 w
    (Instruction.Mul dr.1 dr.2, 1)
  -- Load variants: 1001 000d dddd xxxx
  else if bits w 9 7 = 0x48 ∧ w % 16 = 0x1 then (Instruction.LdZInc d_r, 1)
  else if bits w 9 7 = 0x48 ∧ w % 16 = 0x2 then (Instruction.LdZDec d_r, 1)
  else if bits w 9 7 = 0x48 ∧ w % 16 = 0x4 then (Instruction.LpmD d_r, 1)
  else if bits w 9 7 = 0x48 ∧ w % 16 = 0x5 then (Instruction.LpmDInc d_r, 1)
  else if bits w 9 7 = 0x48 ∧ w % 16 = 0x6 then (Instruction.ElpmD d_r, 1)
  else if bits w 9 7 = 0x48 ∧ w % 16 = 0x7 then (Instruction.ElpmDInc d_r, 1)
  else if bits w 9 7 = 0x48 ∧ w % 16 = 0x9 then (Instruction.LdYInc d_r, 1)
  else if bits w 9 7 = 0x48 ∧ w % 16 = 0xA then (Instruction.LdYDec d_r, 1)
  else if bits w 9 7 = 0x48 ∧ w % 16 = 0xC then (Instruction.LdX d_r, 1)
  else if bits w 9 7 = 0x48 ∧ w % 16 = 0xD then (Instruction.LdXInc d_r, 1)
  else if bits w 9 7 = 0x48 ∧ w % 16 = 0xE then (Instruction.LdXDec d_r, 1)
  else if bits w 9 7 = 0x48 ∧ w % 16 = 0xF then (Instruction.Pop d_r, 1)
  -- Store variants: 1001 001r rrrr xxxx
  else if bits w 9 7 = 0x49 ∧ w % 16 = 0x1 then (Instruction.StZInc d_r, 1)
  else if bits w 9 7 = 0x49 ∧ w % 16 = 0x2 then (Instruction.StZDec d_r, 1)
  else if bits w 9 7 = 0x49 ∧ w % 16 = 0x9 then (Instruction.StYInc d_r, 1)
  else if bits w 9 7 = 0x49 ∧ w % 16 = 0xA then (Instruction.StYDec d_r, 1)
  else if bits w 9 7 = 0x49 ∧ w % 16 = 0xC then (Instruction.StX d_r, 1)
  else if bits w 9 7 = 0x49 ∧ w % 16 = 0xD then (Instruction.StXInc d_r, 1)
  else if bits w 9 7 = 0x49 ∧ w % 16 = 0xE then (Instruction.StXDec d_r, 1)
  else if bits w 9 7 = 0x49 ∧ w % 16 = 0xF then (Instruction.Push d_r, 1)
  else (Instruction.Unknown w, 1)

/-- The `decode_1111` helper: branches, BLD, BST, SBRC, SBRS. -/
def decode_1111 (w : Nat) : Instruction × Nat :=
  if bits w 10 6 = 0x3C then (Instruction.Brbs (w % 8) (sign_extend_7 (bits w 3 7)), 1)
  else if bits w 10 6 = 0x3D then (Instruction.Brbc (w % 8) (sign_extend_7 (bits w 3 7)), 1)
  else if bits w 9 7 = 0x7C ∧ bit w 3 = 0 then (Instruction.Bld (bits w 4 5) (w % 8), 1)
  else if bits w 9 7 = 0x7D ∧ bit w 3 = 0 then (Instruction.Bst (bits w 4 5) (w % 8), 1)
  else if bits w 9 7 = 0x7E ∧ bit w 3 = 0 then (Instruction.Sbrc (bits w 4 5) (w % 8), 1)
  else if bits w 9 7 = 0x7F ∧ bit w 3 = 0 then (Instruction.Sbrs (bits w 4 5) (w % 8), 1)
  else (Instruction.Unknown w, 1)

end Decode

open Decode in
/-- The four 32-bit instruction tests at the top of `decode`
(JMP / CALL / LDS / STS).  Rust mask tests translate to bit-field
equalities:
* `w & 0xFE0E == 0x940C` (JMP)  ↦ `bits w 9 7 = 0x4A ∧ bits w 1 3 = 6`
* `w & 0xFE0E == 0x940E` (CALL) ↦ `bits w 9 7 = 0x4A ∧ bits w 1 3 = 7`
* `w & 0xFE0F == 0x9000` (LDS)  ↦ `bits w 9 7 = 0x48 ∧ w % 16 = 0`
* `w & 0xFE0F == 0x9200` (STS)  ↦ `bits w 9 7 = 0x49 ∧ w % 16 = 0`. -/
def decode32 (w nw : Nat) : Option (Instruction × Nat) :=
  if bits w 9 7 = 0x4A ∧ bits w 1 3 = 6 then
    some (Instruction.Jmp ((bits w 4 5 * 2 + w % 2) * 65536 + nw), 2)
  else if bits w 9 7 = 0x4A ∧ bits w 1 3 = 7 then
    some (Instruction.Call ((bits w 4 5 * 2 + w % 2) * 65536 + nw), 2)
  else if bits w 9 7 = 0x48 ∧ w % 16 = 0 then
    some (Instruction.Lds (bits w 4 5) nw, 2)
  else if bits w 9 7 = 0x49 ∧ w % 16 = 0 then
    some (Instruction.Sts nw (bits w 4 5), 2)
  else none

/-- The fixed 16-bit encodings (`match word { ... }` in `decode`). -/
def decodeFixed (w : Nat) : Option (Instruction × Nat) :=
  if w = 0x0000 then some (Instruction.Nop, 1)
  else if w = 0x9508 then some (Instruction.Ret, 1)
  else if w = 0x9518 then some (Instruction.Reti, 1)
  else if w = 0x9409 then some (Instruction.Ijmp, 1)
  else if w = 0x9509 then some (Instruction.Icall, 1)
  else if w = 0x9588 then some (Instruction.Sleep, 1)
  else if w = 0x95A8 then some (Instruction.Wdr, 1)
  else if w = 0x95C8 then some (Instruction.Lpm0, 1)
  else if w = 0x95D8 then some (Instruction.Elpm0, 1)
  else if w = 0x9408 then some (Instruction.Sec, 1)
  else if w = 0x9488 then some (Instruction.Clc, 1)
  else if w = 0x9418 then some (Instruction.Sez, 1)
  else if w = 0x9498 then some (Instruction.Clz, 1)
  else if w = 0x9428 then some (Instruction.Sen, 1)
  else if w = 0x94A8 then some (Instruction.Cln, 1)
  else if w = 0x9438 then some (Instruction.Sev, 1)
  else if w = 0x94B8 then some (Instruction.Clv, 1)
  else if w = 0x9448 then some (Instruction.Ses, 1)
  else if w = 0x94C8 then some (Instruction.Cls, 1)
  else if w = 0x9458 then some (Instruction.Seh, 1)
  else if w = 0x94D8 then some (Instruction.Clh, 1)
  else if w = 0x9468 then some (Instruction.SetT, 1)
  else if w = 0x94E8 then some (Instruction.Clt, 1)
  else if w = 0x9478 then some (Instruction.Sei, 1)
  else if w = 0x94F8 then some (Instruction.Cli, 1)
  else none

open Decode in
/-- The `0x0` upper-nibble arm (MOVW / MULS / MULSU / FMUL / FMULS,
then CPC / SBC / ADD). -/
def decodeNib0 (w : Nat) : Instruction × Nat :=
  if bits w 8 8 = 0x01 then
    (Instruction.Movw (bits w 4 4 * 2) (w % 16 * 2), 1)
  else if bits w 8 8 = 0x02 then
    (Instruction.Muls (bits w 4 4 + 16) (w % 16 + 16), 1)
  else if bits w 8 8 = 0x03 ∧ bit w 7 = 0 ∧ bit w 3 = 0 then
    (Instruction.Mulsu (bits w 4 3 + 16) (w % 8 + 16), 1)
  else if bits w 8 8 = 0x03 ∧ bit w 7 = 0 ∧ bit w 3 = 1 then
    (Instruction.Fmul (bits w 4 3 + 16) (w % 8 + 16), 1)
  else if bits w 8 8 = 0x03 ∧ bit w 7 = 1 ∧ bit w 3 = 0 then
    (Instruction.Fmuls (bits w 4 3 + 16) (w % 8 + 16), 1)
  else if bits w 10 6 = 0x01 then
    let dr := decode_5_5 w; (Instruction.Cpc dr.1 dr.2, 1)
  else if bits w 10 6 = 0x02 then
    let dr := decode_5_5 w; (Instruction.Sbc dr.1 dr.2, 1)
  else if bits w 10 6 = 0x03 then
    let dr := decode_5_5 w; (Instruction.Add dr.1 dr.2, 1)
  else (Instruction.Unknown w, 1)

open Decode in
/-- The `0x1` upper-nibble arm (CPSE / CP / SUB / ADC). -/
def decodeNib1 (w : Nat) : Instruction × Nat :=
  if bits w 10 6 = 0x04 then
    let dr := decode_5_5 w; (Instruction.Cpse dr.1 dr.2, 1)
  else if bits w 10 6 = 0x05 then
    let dr := decode_5_5 w; (Instruction.Cp dr.1 dr.2, 1)
  else if bits w 10 6 = 0x06 then
    let dr := decode_5_5 w; (Instruction.Sub dr.1 dr.2, 1)
  else
    let dr := decode_5_5 w; (Instruction.Adc dr.1 dr.2, 1)

open Decode in
/-- The `0x2` upper-nibble arm (AND / EOR / OR / MOV). -/
def decodeNib2 (w : Nat) : Instruction × Nat :=
  if bits w 10 6 = 0x08 then
    let dr := decode_5_5 w; (Instruction.And dr.1 dr.2, 1)
  else if bits w 10 6 = 0x09 then
    let dr := decode_5_5 w; (Instruction.Eor dr.1 dr.2, 1)
  else if bits w 10 6 = 0x0A then
    let dr := decode_5_5 w; (Instruction.Or dr.1 dr.2, 1)
  else
    let dr := decode_5_5 w; (Instruction.Mov dr.1 dr.2, 1)

/-- The `0x8 | 0xA` upper-nibble arm: LDD/STD with displacement, plain
LD/ST Y/Z when q = 0.  `q = q5<<5 | q4q3<<3 | q2q1q0` from opcode bits
13, 11:10, 2:0. -/
def decodeLddStd (w : Nat) : Instruction × Nat :=
  let q := bit w 13 * 32 + bits w 10 2 * 8 + w % 8
  let d_r := bits w 4 5
  let is_store := bit w 9 = 1
  let is_y := bit w 3 = 1
  if is_y then
    if ¬ is_store then
      if q = 0 then (Instruction.LdY d_r, 1) else (Instruction.LdYQ d_r q, 1)
    else
      if q = 0 then (Instruction.StY d_r, 1) else (Instruction.StYQ d_r q, 1)
  else
    if ¬ is_store then
      if q = 0 then (Instruction.LdZ d_r, 1) else (Instruction.LdZQ d_r q, 1)
    else
      if q = 0 then (Instruction.StZ d_r, 1) else (Instruction.StZQ d_r q, 1)

/-- The `0xB` upper-nibble arm (IN / OUT; the I/O address is converted
to data space by adding 0x20 at decode time). -/
def decodeInOut (w : Nat) : Instruction × Nat :=
  let d_r := bits w 4 5
  let a := bits w 9 2 * 16 + w % 16
  if bit w 11 = 0 then (Instruction.In_ d_r (a + 0x20), 1)
  else (Instruction.Out_ (a + 0x20) d_r, 1)

open Decode in
/-- The upper-nibble dispatch of `decode` (after the 32-bit and fixed
encodings failed to match). -/
def decodeUpper (w : Nat) : Instruction × Nat :=
  if bits w 12 4 = 0x0 then decodeNib0 w
  else if bits w 12 4 = 0x1 then decodeNib1 w
  else if bits w 12 4 = 0x2 then decodeNib2 w
  else if bits w 12 4 = 0x3 then
    let dk := decode_4_8 w; (Instruction.Cpi (dk.1 + 16) dk.2, 1)
  else if bits w 12 4 = 0x4 then
    let dk := decode_4_8 w; (Instruction.Sbci (dk.1 + 16) dk.2, 1)
  else if bits w 12 4 = 0x5 then
    let dk := decode_4_8 w; (Instruction.Subi (dk.1 + 16) dk.2, 1)
  else if bits w 12 4 = 0x6 then
    let dk := decode_4_8 w; (Instruction.Ori (dk.1 + 16) dk.2, 1)
  else if bits w 12 4 = 0x7 then
    let dk := decode_4_8 w; (Instruction.Andi (dk.1 + 16) dk.2, 1)
  else if bits w 12 4 = 0x8 ∨ bits w 12 4 = 0xA then decodeLddStd w
  else if bits w 12 4 = 0x9 then decode_1001 w
  else if bits w 12 4 = 0xB then decodeInOut w
  else if bits w 12 4 = 0xC then (Instruction.Rjmp (sign_extend_12 (w % 4096)), 1)
  else if bits w 12 4 = 0xD then (Instruction.Rcall (sign_extend_12 (w % 4096)), 1)
  else if bits w 12 4 = 0xE then
    let dk := decode_4_8 w; (Instruction.Ldi (dk.1 + 16) dk.2, 1)
  else if bits w 12 4 = 0xF then decode_1111 w
  else (Instruction.Unknown w, 1)

/-- `opcodes::decode`: decode one 16-bit word (with the next word for
the four 32-bit forms) into `(instruction, size in words)`: first the
32-bit masks, then the fixed encodings, then the upper-nibble dispatch. -/
def decode (word next_word : Nat) : Instruction × Nat :=
  let w := word % 65536
  let nw := next_word % 65536
  match decode32 w nw with
  | some r => r
  | none =>
    match decodeFixed w with
    | some r => r
    | none => decodeUpper w

/-!
## CPU executor (`cpu.rs`)

`Machine` is the CPU + memory slice of the `Arduboy` system.  The
memory-mapped bus router (`Arduboy::read_data` / `write_data` /
`write_bit`, which dispatch to the peripherals) is passed as a `Bus`
parameter: the executor's theorems below hold for *every* router
behaviour, which only strengthens them.  Register-file accesses
(`Memory::reg`/`set_reg`) index `data` directly; decoded register
numbers are < 32 and immediate-addressed registers < 256, always inside
the ≥ 2272-byte data space, so they are modelled unchecked.
-/

structure Machine where
  cpu : Cpu
  mem : Memory

structure Bus where
  read_data : Machine → Nat → Machine × Nat
  write_data : Machine → Nat → Nat → Machine
  write_bit : Machine → Nat → Nat → Bool → Machine

/-- `sync_sreg`: write the CPU SREG to its 0x5F data-space mirror. -/
def Machine.sync_sreg (m : Machine) : Machine :=
  { m with mem := { m.mem with data := m.mem.data.vset SREG_ADDR (m.cpu.sreg % 256) } }

/-- Mirror SPH/SPL into the data space
(`data[SPH_ADDR] = (sp >> 8) as u8; data[SPL_ADDR] = sp as u8`). -/
def Machine.mirrorSp (m : Machine) : Machine :=
  let d := (m.mem.data.vset SPH_ADDR (m.cpu.sp % 65536 / 256)).vset SPL_ADDR (m.cpu.sp % 256)
  { m with mem := { m.mem with data := d } }

def Machine.reg (m : Machine) (r : Nat) : Nat := m.mem.reg r

def Machine.setReg (m : Machine) (r v : Nat) : Machine :=
  { m with mem := m.mem.set_reg r v }

def Machine.withSreg (m : Machine) (s : Nat) : Machine :=
  { m with cpu := { m.cpu with sreg := s } }

def Machine.withPc (m : Machine) (pc : Nat) : Machine :=
  { m with cpu := { m.cpu with pc := pc } }

/-- `Arduboy::push_word`: high byte at SP, low at SP−1 (clamped stores),
then SPH/SPL mirrors. -/
def Machine.push_word (m : Machine) (val : Nat) : Machine :=
  let m := { m with mem := m.mem.write_raw (m.cpu.sp % 65536) (val % 65536 / 256) }
  let m := { m with cpu := { m.cpu with sp := wsub16 m.cpu.sp 1 } }
  let m := { m with mem := m.mem.write_raw m.cpu.sp (val % 256) }
  let m := { m with cpu := { m.cpu with sp := wsub16 m.cpu.sp 1 } }
  m.mirrorSp

/-- `Arduboy::pop_word`. -/
def Machine.pop_word (m : Machine) : Machine × Nat :=
  let m := { m with cpu := { m.cpu with sp := wadd16 m.cpu.sp 1 } }
  let lo := m.mem.read_raw m.cpu.sp
  let m := { m with cpu := { m.cpu with sp := wadd16 m.cpu.sp 1 } }
  let hi := m.mem.read_raw m.cpu.sp
  (m.mirrorSp, (hi % 256) * 256 + lo % 256)

/-- `cpu::skip_next`: advance PC by 1 or 2 depending on whether the next
word starts a 32-bit instruction (JMP/CALL/LDS/STS masks). -/
def skipNext (cpu : Cpu) (mem : Memory) : Cpu :=
  let nw := mem.read_program_word (cpu.pc % 65536)
  let is32 := (bits nw 9 7 = 0x4A ∧ bits nw 1 3 = 6)
    ∨ (bits nw 9 7 = 0x4A ∧ bits nw 1 3 = 7)
    ∨ (bits nw 9 7 = 0x48 ∧ nw % 16 = 0)
    ∨ (bits nw 9 7 = 0x49 ∧ nw % 16 = 0)
  { cpu with pc := wadd16 cpu.pc (if is32 then 2 else 1) }

/-- Signed value of a byte (Rust `x as i8`). -/
def i8val (x : Nat) : Int :=
  if x % 256 ≥ 128 then (x % 256 : Int) - 256 else (x % 256 : Int)

/-- Truncate an `Int` to `u16` (Rust `as u16` on a possibly negative value). -/
def i16u (x : Int) : Nat := (x.emod 65536).toNat

/-- `cpu::flags_add`: SREG after ADD/ADC.  The source assembles
`(sreg & 0b1100_0000) | h<<5 | s<<4 | v<<3 | n<<2 | z<<1 | c`; the bit
fields are disjoint, so it is the arithmetic sum below. -/
def flags_add (sreg rd rr r : Nat) : Nat :=
  let s8 := sreg % 256
  let rd := rd % 256
  let rr := rr % 256
  let r := r % 256
  let r7 := bitB r 7
  let rd7 := bitB rd 7
  let rr7 := bitB rr 7
  let r3 := bitB r 3
  let rd3 := bitB rd 3
  let rr3 := bitB rr 3
  let h := (rd3 && rr3) || (rr3 && !r3) || (!r3 && rd3)
  let v := (rd7 && rr7 && !r7) || (!rd7 && !rr7 && r7)
  let n := r7
  let z := decide (r = 0)
  let c := (rd7 && rr7) || (rr7 && !r7) || (!r7 && rd7)
  let s := Bool.xor n v
  s8 / 64 * 64 + b2n h * 32 + b2n s * 16 + b2n v * 8 + b2n n * 4 + b2n z * 2 + b2n c

/-- `cpu::flags_sub`: SREG after SUB/SBC/CP/CPC.  When `set_z` is false
(SBC/SBCI/CPC) the Z flag is cleared when the result is non-zero and
otherwise keeps its previous value. -/
def flags_sub (sreg rd rr r : Nat) (set_z : Bool) : Nat :=
  let s8 := sreg % 256
  let rd := rd % 256
  let rr := rr % 256
  let r := r % 256
  let r7 := bitB r 7
  let rd7 := bitB rd 7
  let rr7 := bitB rr 7
  let r3 := bitB r 3
  let rd3 := bitB rd 3
  let rr3 := bitB rr 3
  let h := (!rd3 && rr3) || (rr3 && r3) || (r3 && !rd3)
  let v := (rd7 && !rr7 && !r7) || (!rd7 && rr7 && r7)
  let n := r7
  let c := (!rd7 && rr7) || (rr7 && r7) || (r7 && !rd7)
  let s := Bool.xor n v
  let z : Nat := if set_z then (if r = 0 then 1 else 0)
    else (if r ≠ 0 then 0 else s8 / 2 % 2)
  s8 / 64 * 64 + b2n h * 32 + b2n s * 16 + b2n v * 8 + b2n n * 4 + z * 2 + b2n c

/-- `cpu::flags_logic`: SREG after AND/OR/EOR (V cleared; the mask
`0b1110_0001` preserves I, T, H and C). -/
def flags_logic (sreg r : Nat) : Nat :=
  let s8 := sreg % 256
  let r := r % 256
  let n := bitB r 7
  let z := decide (r = 0)
  let s := n
  s8 / 32 * 32 + b2n s * 16 + b2n n * 4 + b2n z * 2 + s8 % 2

/-- Set or clear bit `i` of the byte `x` (`Cpu::set_flag`, BLD). -/
def setBit8 (x i : Nat) (b : Bool) : Nat :=
  clearBit8 x i + (if b then 2 ^ i else 0)

/-- `Arduboy::execute_inst`: execute one decoded instruction against the
bus, returning the new machine and the cycle cost.  PC has already been
advanced by `size` when an arm runs (step 1 of the executor). -/
def execute_inst (bus : Bus) (m0 : Machine) (inst : Instruction) (size : Nat) :
    Machine × Nat :=
  let m := { m0 with cpu := { m0.cpu with pc := wadd16 m0.cpu.pc size } }
  match inst with
  | Instruction.Nop => (m, 1)
  | Instruction.Add d r =>
      let rd := m.reg d
      let rr := m.reg r
      let res := wadd8 rd rr
      let m := (m.setReg d res).withSreg (flags_add m.cpu.sreg rd rr res)
      (m.sync_sreg, 1)
  | Instruction.Adc d r =>
      let rd := m.reg d
      let rr := m.reg r
      let c := m.cpu.sreg % 2
      let res := wadd8 (wadd8 rd rr) c
      let m := (m.setReg d res).withSreg (flags_add m.cpu.sreg rd rr res)
      (m.sync_sreg, 1)
  | Instruction.Sub d r =>
      let rd := m.reg d
      let rr := m.reg r
      let res := wsub8 rd rr
      let m := (m.setReg d res).withSreg (flags_sub m.cpu.sreg rd rr res true)
      (m.sync_sreg, 1)
  | Instruction.Subi d k =>
      let rd := m.reg d
      let res := wsub8 rd k
      let m := (m.setReg d res).withSreg (flags_sub m.cpu.sreg rd k res true)
      (m.sync_sreg, 1)
  | Instruction.Sbc d r =>
      let rd := m.reg d
      let rr := m.reg r
      let c := m.cpu.sreg % 2
      let res := wsub8 (wsub8 rd rr) c
      let m := (m.setReg d res).withSreg (flags_sub m.cpu.sreg rd rr res false)
      (m.sync_sreg, 1)
  | Instruction.Sbci d k =>
      let rd := m.reg d
      let c := m.cpu.sreg % 2
      let res := wsub8 (wsub8 rd k) c
      let m := (m.setReg d res).withSreg (flags_sub m.cpu.sreg rd k res false)
      (m.sync_sreg, 1)
  | Instruction.And d r =>
      let res := Nat.land (m.reg d % 256) (m.reg r % 256)
      let m := (m.setReg d res).withSreg (flags_logic m.cpu.sreg res)
      (m.sync_sreg, 1)
  | Instruction.Andi d k =>
      let res := Nat.land (m.reg d % 256) (k % 256)
      let m := (m.setReg d res).withSreg (flags_logic m.cpu.sreg res)
      (m.sync_sreg, 1)
  | Instruction.Or d r =>
      let res := Nat.lor (m.reg d % 256) (m.reg r % 256)
      let m := (m.setReg d res).withSreg (flags_logic m.cpu.sreg res)
      (m.sync_sreg, 1)
  | Instruction.Ori d k =>
      let res := Nat.lor (m.reg d % 256) (k % 256)
      let m := (m.setReg d res).withSreg (flags_logic m.cpu.sreg res)
      (m.sync_sreg, 1)
  | Instruction.Eor d r =>
      let res := Nat.xor (m.reg d % 256) (m.reg r % 256)
      let m := (m.setReg d res).withSreg (flags_logic m.cpu.sreg res)
      (m.sync_sreg, 1)
  | Instruction.Com d =>
      let res := 255 - m.reg d % 256
      let s8 := m.cpu.sreg % 256
      let n := bitB res 7
      let z := decide (res = 0)
      let m := (m.setReg d res).withSreg
        (s8 / 64 * 64 + b2n n * 16 + b2n n * 4 + b2n z * 2 + 1)
      (m.sync_sreg, 1)
  | Instruction.Neg d =>
      let rd := m.reg d
      let res := wsub8 0 rd
      let m := (m.setReg d res).withSreg (flags_sub m.cpu.sreg 0 rd res true)
      (m.sync_sreg, 1)
  | Instruction.Inc d =>
      let rd := m.reg d
      let res := wadd8 rd 1
      let s8 := m.cpu.sreg % 256
      let n := bitB res 7
      let v := decide (rd % 256 = 0x7F)
      let z := decide (res = 0)
      let s := Bool.xor n v
      let m := (m.setReg d res).withSreg
        (s8 / 32 * 32 + b2n s * 16 + b2n v * 8 + b2n n * 4 + b2n z * 2 + s8 % 2)
      (m.sync_sreg, 1)
  | Instruction.Dec d =>
      let rd := m.reg d
      let res := wsub8 rd 1
      let s8 := m.cpu.sreg % 256
      let n := bitB res 7
      let v := decide (rd % 256 = 0x80)
      let z := decide (res = 0)
      let s := Bool.xor n v
      let m := (m.setReg d res).withSreg
        (s8 / 32 * 32 + b2n s * 16 + b2n v * 8 + b2n n * 4 + b2n z * 2 + s8 % 2)
      (m.sync_sreg, 1)
  | Instruction.Mul d r =>
      let res := m.reg d % 256 * (m.reg r % 256)
      let m := (m.setReg 0 (res % 256)).setReg 1 (res / 256 % 256)
      let s8 := m.cpu.sreg % 256
      let c := bit res 15
      let z : Nat := if res = 0 then 1 else 0
      let m := m.withSreg (s8 / 4 * 4 + z * 2 + c)
      (m.sync_sreg, 2)
  | Instruction.Muls d r =>
      let res := i16u (i8val (m.reg d) * i8val (m.reg r))
      let m := (m.setReg 0 (res % 256)).setReg 1 (res / 256 % 256)
      let s8 := m.cpu.sreg % 256
      let c := bit res 15
      let z : Nat := if res = 0 then 1 else 0
      let m := m.withSreg (s8 / 4 * 4 + z * 2 + c)
      (m.sync_sreg, 2)
  | Instruction.Mulsu d r =>
      let res := i16u (i8val (m.reg d) * (m.reg r % 256 : Nat))
      let m := (m.setReg 0 (res % 256)).setReg 1 (res / 256 % 256)
      let s8 := m.cpu.sreg % 256
      let c := bit res 15
      let z : Nat := if res = 0 then 1 else 0
      let m := m.withSreg (s8 / 4 * 4 + z * 2 + c)
      (m.sync_sreg, 2)
  | Instruction.Fmul d r =>
      let res := m.reg d % 256 * (m.reg r % 256) * 2 % 65536
      let m := (m.setReg 0 (res % 256)).setReg 1 (res / 256 % 256)
      let s8 := m.cpu.sreg % 256
      let c := bit res 15
      let z : Nat := if res = 0 then 1 else 0
      let m := m.withSreg (s8 / 4 * 4 + z * 2 + c)
      (m.sync_sreg, 2)
  | Instruction.Fmuls d r =>
      let res := i16u (i8val (m.reg d) * i8val (m.reg r) * 2)
      let m := (m.setReg 0 (res % 256)).setReg 1 (res / 256 % 256)
      let s8 := m.cpu.sreg % 256
      let c := bit res 15
      let z : Nat := if res = 0 then 1 else 0
      let m := m.withSreg (s8 / 4 * 4 + z * 2 + c)
      (m.sync_sreg, 2)
  | Instruction.Adiw d k =>
      let pi := wsub8 d 24 / 2
      let val := m.mem.reg_pair pi % 65536
      let res := wadd16 val (k % 65536)
      let m := { m with mem := m.mem.set_reg_pair pi res }
      let s8 := m.cpu.sreg % 256
      let rdh7 := bitB val 15
      let r15 := bitB res 15
      let v := !rdh7 && r15
      let n := r15
      let z := decide (res = 0)
      let c := !r15 && rdh7
      let s := Bool.xor n v
      let m := m.withSreg
        (s8 / 32 * 32 + b2n s * 16 + b2n v * 8 + b2n n * 4 + b2n z * 2 + b2n c)
      (m.sync_sreg, 2)
  | Instruction.Sbiw d k =>
      let pi := wsub8 d 24 / 2
      let val := m.mem.reg_pair pi % 65536
      let res := wsub16 val (k % 65536)
      let m := { m with mem := m.mem.set_reg_pair pi res }
      let s8 := m.cpu.sreg % 256
      let rdh7 := bitB val 15
      let r15 := bitB res 15
      let v := rdh7 && !r15
      let n := r15
      let z := decide (res = 0)
      let c := r15 && !rdh7
      let s := Bool.xor n v
      let m := m.withSreg
        (s8 / 32 * 32 + b2n s * 16 + b2n v * 8 + b2n n * 4 + b2n z * 2 + b2n c)
      (m.sync_sreg, 2)
  | Instruction.Cp d r =>
      let rd := m.reg d
      let rr := m.reg r
      let m := m.withSreg (flags_sub m.cpu.sreg rd rr (wsub8 rd rr) true)
      (m.sync_sreg, 1)
  | Instruction.Cpc d r =>
      let rd := m.reg d
      let rr := m.reg r
      let c := m.cpu.sreg % 2
      let res := wsub8 (wsub8 rd rr) c
      let m := m.withSreg (flags_sub m.cpu.sreg rd rr res false)
      (m.sync_sreg, 1)
  | Instruction.Cpi d k =>
      let rd := m.reg d
      let m := m.withSreg (flags_sub m.cpu.sreg rd k (wsub8 rd k) true)
      (m.sync_sreg, 1)
  | Instruction.Mov d r => (m.setReg d (m.reg r), 1)
  | Instruction.Movw d r =>
      let lo := m.reg r
      let hi := m.reg (r + 1)
      ((m.setReg d lo).setReg (d + 1) hi, 1)
  | Instruction.Ldi d k => (m.setReg d k, 1)
  | Instruction.Lds d k =>
      let p := bus.read_data m k
      (p.1.setReg d p.2, 2)
  | Instruction.Sts k r =>
      (bus.write_data m k (m.reg r), 2)
  | Instruction.LdX d =>
      let a := m.mem.xreg
      let p := bus.read_data m a
      (p.1.setReg d p.2, 2)
  | Instruction.LdXInc d =>
      let a := m.mem.xreg
      let p := bus.read_data m a
      let m := p.1.setReg d p.2
      ({ m with mem := m.mem.set_x (wadd16 a 1) }, 2)
  | Instruction.LdXDec d =>
      let a := wsub16 m.mem.xreg 1
      let m := { m with mem := m.mem.set_x a }
      let p := bus.read_data m a
      (p.1.setReg d p.2, 2)
  | Instruction.LdY d =>
      let a := m.mem.yreg
      let p := bus.read_data m a
      (p.1.setReg d p.2, 2)
  | Instruction.LdYInc d =>
      let a := m.mem.yreg
      let p := bus.read_data m a
      let m := p.1.setReg d p.2
      ({ m with mem := m.mem.set_y (wadd16 a 1) }, 2)
  | Instruction.LdYDec d =>
      let a := wsub16 m.mem.yreg 1
      let m := { m with mem := m.mem.set_y a }
      let p := bus.read_data m a
      (p.1.setReg d p.2, 2)
  | Instruction.LdYQ d q =>
      let a := wadd16 m.mem.yreg (q % 65536)
      let p := bus.read_data m a
      (p.1.setReg d p.2, 2)
  | Instruction.LdZ d =>
      let a := m.mem.zreg
      let p := bus.read_data m a
      (p.1.setReg d p.2, 2)
  | Instruction.LdZInc d =>
      let a := m.mem.zreg
      let p := bus.read_data m a
      let m := p.1.setReg d p.2
      ({ m with mem := m.mem.set_z (wadd16 a 1) }, 2)
  | Instruction.LdZDec d =>
      let a := wsub16 m.mem.zreg 1
      let m := { m with mem := m.mem.set_z a }
      let p := bus.read_data m a
      (p.1.setReg d p.2, 2)
  | Instruction.LdZQ d q =>
      let a := wadd16 m.mem.zreg (q % 65536)
      let p := bus.read_data m a
      (p.1.setReg d p.2, 2)
  | Instruction.StX r =>
      (bus.write_data m (m.mem.xreg) (m.reg r), 2)
  | Instruction.StXInc r =>
      let a := m.mem.xreg
      let m := bus.write_data m a (m.reg r)
      ({ m with mem := m.mem.set_x (wadd16 a 1) }, 2)
  | Instruction.StXDec r =>
      let a := wsub16 m.mem.xreg 1
      let m := { m with mem := m.mem.set_x a }
      (bus.write_data m a (m.reg r), 2)
  | Instruction.StY r =>
      (bus.write_data m (m.mem.yreg) (m.reg r), 2)
  | Instruction.StYInc r =>
      let a := m.mem.yreg
      let m := bus.write_data m a (m.reg r)
      ({ m with mem := m.mem.set_y (wadd16 a 1) }, 2)
  | Instruction.StYDec r =>
      let a := wsub16 m.mem.yreg 1
      let m := { m with mem := m.mem.set_y a }
      (bus.write_data m a (m.reg r), 2)
  | Instruction.StYQ r q =>
      (bus.write_data m (wadd16 m.mem.yreg (q % 65536)) (m.reg r), 2)
  | Instruction.StZ r =>
      (bus.write_data m (m.mem.zreg) (m.reg r), 2)
  | Instruction.StZInc r =>
      let a := m.mem.zreg
      let m := bus.write_data m a (m.reg r)
      ({ m with mem := m.mem.set_z (wadd16 a 1) }, 2)
  | Instruction.StZDec r =>
      let a := wsub16 m.mem.zreg 1
      let m := { m with mem := m.mem.set_z a }
      (bus.write_data m a (m.reg r), 2)
  | Instruction.StZQ r q =>
      (bus.write_data m (wadd16 m.mem.zreg (q % 65536)) (m.reg r), 2)
  | Instruction.Push r =>
      let v := m.reg r
      let sp := m.cpu.sp
      let m := { m with mem := m.mem.write_raw (sp % 65536) v }
      let m := { m with cpu := { m.cpu with sp := wsub16 sp 1 } }
      (m.mirrorSp, 2)
  | Instruction.Pop d =>
      let m := { m with cpu := { m.cpu with sp := wadd16 m.cpu.sp 1 } }
      let m := m.mirrorSp
      let v := m.mem.read_raw m.cpu.sp
      (m.setReg d v, 2)
  | Instruction.Lsr d =>
      let rd := m.reg d % 256
      let res := rd / 2
      let s8 := m.cpu.sreg % 256
      let c := rd % 2
      let n := 0
      let v := c
      let z : Nat := if res = 0 then 1 else 0
      let s := (n + v) % 2
      let m := (m.setReg d res).withSreg
        (s8 / 32 * 32 + s * 16 + v * 8 + n * 4 + z * 2 + c)
      (m.sync_sreg, 1)
  | Instruction.Asr d =>
      let rd := m.reg d % 256
      let res := if rd ≥ 128 then rd / 2 + 128 else rd / 2
      let s8 := m.cpu.sreg % 256
      let c := rd % 2
      let n := bit res 7
      let v := (n + c) % 2
      let z : Nat := if res = 0 then 1 else 0
      let s := (n + v) % 2
      let m := (m.setReg d res).withSreg
        (s8 / 32 * 32 + s * 16 + v * 8 + n * 4 + z * 2 + c)
      (m.sync_sreg, 1)
  | Instruction.Ror d =>
      let rd := m.reg d % 256
      let old_c := m.cpu.sreg % 2
      let res := rd / 2 + old_c * 128
      let s8 := m.cpu.sreg % 256
      let c := rd % 2
      let n := bit res 7
      let v := (n + c) % 2
      let z : Nat := if res = 0 then 1 else 0
      let s := (n + v) % 2
      let m := (m.setReg d res).withSreg
        (s8 / 32 * 32 + s * 16 + v * 8 + n * 4 + z * 2 + c)
      (m.sync_sreg, 1)
  | Instruction.Swap d =>
      let rd := m.reg d % 256
      (m.setReg d (rd / 16 + rd % 16 * 16), 1)
  | Instruction.Bst d b =>
      let v := bitB (m.reg d % 256) b
      let m := m.withSreg (setBit8 m.cpu.sreg SREG_T v)
      (m.sync_sreg, 1)
  | Instruction.Bld d b =>
      let t := bitB (m.cpu.sreg % 256) SREG_T
      (m.setReg d (setBit8 (m.reg d) b t), 1)
  | Instruction.Sbi a b => (bus.write_bit m (a % 65536) b true, 2)
  | Instruction.Cbi a b => (bus.write_bit m (a % 65536) b false, 2)
  | Instruction.Rjmp k =>
      (m.withPc (i16u ((m.cpu.pc % 65536 : Int) + k)), 2)
  | Instruction.Rcall k =>
      let ret := m.cpu.pc
      let m := m.push_word ret
      (m.withPc (i16u ((m.cpu.pc % 65536 : Int) + k)), 3)
  | Instruction.Ret =>
      let p := m.pop_word
      (p.1.withPc p.2, 4)
  | Instruction.Reti =>
      let p := m.pop_word
      let m := (p.1.withPc p.2).withSreg (setBit8 p.1.cpu.sreg SREG_I true)
      (m.sync_sreg, 4)
  | Instruction.Jmp k => (m.withPc (k % 65536), 3)
  | Instruction.Call k =>
      let ret := m.cpu.pc
      let m := m.push_word ret
      (m.withPc (k % 65536), 4)
  | Instruction.Ijmp => (m.withPc (m.mem.zreg % 65536), 2)
  | Instruction.Icall =>
      let ret := m.cpu.pc
      let m := m.push_word ret
      (m.withPc (m.mem.zreg % 65536), 3)
  | Instruction.Cpse d r =>
      if m.reg d % 256 = m.reg r % 256 then
        ({ m with cpu := skipNext m.cpu m.mem }, 2)
      else (m, 1)
  | Instruction.Sbrc r b =>
      if bit (m.reg r % 256) b = 0 then
        ({ m with cpu := skipNext m.cpu m.mem }, 2)
      else (m, 1)
  | Instruction.Sbrs r b =>
      if bit (m.reg r % 256) b = 1 then
        ({ m with cpu := skipNext m.cpu m.mem }, 2)
      else (m, 1)
  | Instruction.Sbic a b =>
      let p := bus.read_data m (a % 65536)
      if bit (p.2 % 256) b = 0 then
        ({ p.1 with cpu := skipNext p.1.cpu p.1.mem }, 2)
      else (p.1, 1)
  | Instruction.Sbis a b =>
      let p := bus.read_data m (a % 65536)
      if bit (p.2 % 256) b = 1 then
        ({ p.1 with cpu := skipNext p.1.cpu p.1.mem }, 2)
      else (p.1, 1)
  | Instruction.Brbs s k =>
      if bit (m.cpu.sreg % 256) s = 1 then
        (m.withPc (i16u ((m.cpu.pc % 65536 : Int) + k)), 2)
      else (m, 1)
  | Instruction.Brbc s k =>
      if bit (m.cpu.sreg % 256) s = 0 then
        (m.withPc (i16u ((m.cpu.pc % 65536 : Int) + k)), 2)
      else (m, 1)
  | Instruction.In_ d a =>
      let p := bus.read_data m (a % 65536)
      (p.1.setReg d p.2, 1)
  | Instruction.Out_ a r =>
      let v := m.reg r
      let addr := a % 65536
      let m := bus.write_data m addr v
      let m :=
        if addr = SREG_ADDR then m.withSreg (v % 256)
        else if addr = SPH_ADDR then
          { m with cpu := { m.cpu with sp := m.cpu.sp % 256 + v % 256 * 256 } }
        else if addr = SPL_ADDR then
          { m with cpu := { m.cpu with sp := m.cpu.sp % 65536 / 256 * 256 + v % 256 } }
        else m
      (m, 1)
  | Instruction.Lpm0 =>
      let z := m.mem.zreg
      (m.setReg 0 (m.mem.read_flash_byte z), 3)
  | Instruction.LpmD d =>
      let z := m.mem.zreg
      (m.setReg d (m.mem.read_flash_byte z), 3)
  | Instruction.LpmDInc d =>
      let z := m.mem.zreg
      let m := m.setReg d (m.mem.read_flash_byte z)
      ({ m with mem := m.mem.set_z (wadd16 z 1) }, 3)
  | Instruction.Elpm0 =>
      let rampz := m.mem.data.get 0x5B % 256
      let z := m.mem.zreg % 65536
      (m.setReg 0 (m.mem.read_flash_byte (rampz * 65536 + z)), 3)
  | Instruction.ElpmD d =>
      let rampz := m.mem.data.get 0x5B % 256
      let z := m.mem.zreg % 65536
      (m.setReg d (m.mem.read_flash_byte (rampz * 65536 + z)), 3)
  | Instruction.ElpmDInc d =>
      let rampz := m.mem.data.get 0x5B % 256
      let z := m.mem.zreg % 65536
      let m := m.setReg d (m.mem.read_flash_byte (rampz * 65536 + z))
      let new_z := z + 1
      let m := { m with mem := m.mem.set_z (new_z % 65536) }
      let m := if bit new_z 16 = 1 then
          let d := m.mem.data.vset 0x5B (wadd8 (m.mem.data.get 0x5B) 1)
          { m with mem := { m.mem with data := d } }
        else m
      (m, 3)
  | Instruction.Sei => ((m.withSreg (setBit8 m.cpu.sreg SREG_I true)).sync_sreg, 1)
  | Instruction.Cli => ((m.withSreg (setBit8 m.cpu.sreg SREG_I false)).sync_sreg, 1)
  | Instruction.Sec => ((m.withSreg (setBit8 m.cpu.sreg SREG_C true)).sync_sreg, 1)
  | Instruction.Clc => ((m.withSreg (setBit8 m.cpu.sreg SREG_C false)).sync_sreg, 1)
  | Instruction.Sen => ((m.withSreg (setBit8 m.cpu.sreg SREG_N true)).sync_sreg, 1)
  | Instruction.Cln => ((m.withSreg (setBit8 m.cpu.sreg SREG_N false)).sync_sreg, 1)
  | Instruction.Sez => ((m.withSreg (setBit8 m.cpu.sreg SREG_Z true)).sync_sreg, 1)
  | Instruction.Clz => ((m.withSreg (setBit8 m.cpu.sreg SREG_Z false)).sync_sreg, 1)
  | Instruction.Sev => ((m.withSreg (setBit8 m.cpu.sreg SREG_V true)).sync_sreg, 1)
  | Instruction.Clv => ((m.withSreg (setBit8 m.cpu.sreg SREG_V false)).sync_sreg, 1)
  | Instruction.Ses => ((m.withSreg (setBit8 m.cpu.sreg SREG_S true)).sync_sreg, 1)
  | Instruction.Cls => ((m.withSreg (setBit8 m.cpu.sreg SREG_S false)).sync_sreg, 1)
  | Instruction.Seh => ((m.withSreg (setBit8 m.cpu.sreg SREG_H true)).sync_sreg, 1)
  | Instruction.Clh => ((m.withSreg (setBit8 m.cpu.sreg SREG_H false)).sync_sreg, 1)
  | Instruction.SetT => ((m.withSreg (setBit8 m.cpu.sreg SREG_T true)).sync_sreg, 1)
  | Instruction.Clt => ((m.withSreg (setBit8 m.cpu.sreg SREG_T false)).sync_sreg, 1)
  | Instruction.Sleep => ({ m with cpu := { m.cpu with sleeping := true } }, 1)
  | Instruction.Wdr => (m, 1)
  | Instruction.Unknown _ => (m, 1)

/-- `Arduboy::step`: fetch the word at PC (and the next word when it is
still inside the 16384-word flash), decode, execute, and charge the
cycle cost to the tick counter.  (The profiler block only records
statistics and does not change the machine.) -/
def step (bus : Bus) (m : Machine) : Machine :=
  let pc := m.cpu.pc % 65536
  let word := m.mem.read_program_word pc
  let next_word := if pc + 1 < FLASH_SIZE / 2 then m.mem.read_program_word (pc + 1) else 0
  let di := decode word next_word
  let r := execute_inst bus m di.1 di.2
  { r.1 with cpu := { r.1.cpu with tick := (r.1.cpu.tick + r.2) % U64 } }

/-!
## Intel HEX parser (`hex.rs`)

`parse_hex` takes the input text and the flash buffer (passed `&mut` by
`Arduboy::load_hex` — **data records are stored into the caller's flash
as the lines are processed**, before any later line can fail).  The
outer `Option` models the panics of the raw `bytes[4 + i]` /
`bytes[4]`/`bytes[5]` indexing on records whose declared length exceeds
the actual data; the inner `Except` is the `Result<usize, String>`.
-/

/-- `hex::hex_char`. -/
def hex_char (c : Char) : Except String Nat :=
  if '0' ≤ c ∧ c ≤ '9' then Except.ok (c.toNat - 48)
  else if 'a' ≤ c ∧ c ≤ 'f' then Except.ok (c.toNat - 97 + 10)
  else if 'A' ≤ c ∧ c ≤ 'F' then Except.ok (c.toNat - 65 + 10)
  else Except.error ("Invalid hex character: " ++ toString c)

/-- The `chunks(2)` loop of `hex_line_to_bytes` (the input length is
even whenever this is reached). -/
def hexPairs : List Char → Except String (List Nat)
  | [] => Except.ok []
  | [_] => Except.error "Odd number of hex characters"
  | c1 :: c2 :: rest => do
      let hi ← hex_char c1
      let lo ← hex_char c2
      let bs ← hexPairs rest
      Except.ok ((hi * 16 + lo) :: bs)

/-- `hex::hex_line_to_bytes`. -/
def hex_line_to_bytes (chars : List Char) : Except String (List Nat) :=
  if chars.length % 2 ≠ 0 then Except.error "Odd number of hex characters"
  else hexPairs chars

/-- The data-record store loop of `parse_hex`: for `i in 0..byte_count`,
if `full_addr + i` is inside flash, store `bytes[4 + i]` (panicking —
`none` — when the record is shorter than its declared length) and grow
`max_addr`. -/
def hexWriteLoop (flash : ByteBuf) (full_addr : Nat) (bytes : List Nat) :
    Nat → Nat → Nat → Option (ByteBuf × Nat)
  | _, 0, max_addr => some (flash, max_addr)
  | idx, cnt + 1, max_addr =>
      let target := full_addr + idx
      if target < flash.size then
        match bytes.get? (4 + idx) with
        | none => none
        | some b =>
            let flash2 := flash.vset target b
            let max2 := if target + 1 > max_addr then target + 1 else max_addr
            hexWriteLoop flash2 full_addr bytes (idx + 1) cnt max2
      else hexWriteLoop flash full_addr bytes (idx + 1) cnt max_addr

/-- Rust `str::trim` on a line of characters (drop whitespace from both
ends). -/
def trimChars (l : List Char) : List Char :=
  ((l.dropWhile fun c => c.isWhitespace).reverse.dropWhile
    fun c => c.isWhitespace).reverse

/-- Split a character stream at every newline (the core of Rust
`str::lines`). -/
def splitLines : List Char → List (List Char)
  | [] => [[]]
  | c :: rest =>
      if c.toNat = 10 then [] :: splitLines rest
      else match splitLines rest with
        | [] => [[c]]
        | l :: ls => (c :: l) :: ls

/-- The per-line loop of `parse_hex` (lines, max_addr, base_addr, flash). -/
def parse_hex_go : List (List Char) → Nat → Nat → ByteBuf →
    Option (Except String Nat × ByteBuf)
  | [], max_addr, _, flash => some (Except.ok max_addr, flash)
  | line :: rest, max_addr, base_addr, flash =>
    match trimChars line with
    | [] => parse_hex_go rest max_addr base_addr flash
    | c :: body =>
      if c ≠ ':' then parse_hex_go rest max_addr base_addr flash
      else
      match hex_line_to_bytes body with
      | Except.error e => some (Except.error e, flash)
      | Except.ok bytes =>
        if bytes.length < 5 then some (Except.error "Line too short", flash)
        else
          let byte_count := bytes.getD 0 0
          let addr := bytes.getD 1 0 * 256 + bytes.getD 2 0
          let record_type := bytes.getD 3 0
          let sum := bytes.foldl (fun acc b => (acc + b) % 256) 0
          if sum ≠ 0 then
            some (Except.error ("Checksum error: sum=" ++ toString sum), flash)
          else if record_type = 0x00 then
            match hexWriteLoop flash (base_addr + addr) bytes 0 byte_count max_addr with
            | none => none
            | some (flash2, max2) => parse_hex_go rest max2 base_addr flash2
          else if record_type = 0x01 then some (Except.ok max_addr, flash)
          else if record_type = 0x02 then
            if byte_count ≥ 2 then
              match bytes.get? 4, bytes.get? 5 with
              | some b4, some b5 =>
                  parse_hex_go rest max_addr ((b4 * 256 + b5) * 16) flash
              | _, _ => none
            else parse_hex_go rest max_addr base_addr flash
          else if record_type = 0x04 then
            if byte_count ≥ 2 then
              match bytes.get? 4, bytes.get? 5 with
              | some b4, some b5 =>
                  parse_hex_go rest max_addr ((b4 * 256 + b5) * 65536) flash
              | _, _ => none
            else parse_hex_go rest max_addr base_addr flash
          else parse_hex_go rest max_addr base_addr flash

/-- Rust `str::lines`: split on `\n`, drop a trailing empty piece,
strip a trailing `\r` from each line. -/
def rustLines (s : String) : List (List Char) :=
  let parts := splitLines s.toList
  let parts := match parts.reverse with
    | [] :: rest => rest.reverse
    | _ => parts
  parts.map (fun l => match l.reverse with
    | c :: r => if c.toNat = 13 then r.reverse else l
    | [] => l)

/-- `hex::parse_hex`: parse the Intel HEX text into `flash`, returning
the highest address written. -/
def parse_hex (hex : String) (flash : ByteBuf) :
    Option (Except String Nat × ByteBuf) :=
  parse_hex_go (rustLines hex) 0 0 flash

/-!
## Specification-side definitions and concrete fixtures

`lddStdSpec` is written from the specification's wording (to be compared
with the source-derived `decode`); everything else is concrete machine /
system states used in the theorems below.
-/

/-- The LDD/STD `Y+q` / `Z+q` group as the specification describes it:
the 6-bit displacement is `q5<<5 | q4q3<<3 | q2q1q0`, drawn from opcode
bits 13, 11:10 and 2:0 (the last three bits are `w % 8`); the register
index comes from bits 8:4; bit 9 distinguishes store from load and
bit 3 selects Y over Z; `q = 0` decodes to the plain `LD`/`ST` form,
and every form is one word long.  (Written from the claim's wording, to
be compared against `decode`.) -/
def lddStdSpec (w : Nat) : Instruction × Nat :=
  let q := bit w 13 * 32 + bits w 10 2 * 8 + w % 8
  let d_r := bits w 4 5
  let is_store := bit w 9 = 1
  let is_y := bit w 3 = 1
  if is_y then
    if ¬ is_store then
      if q = 0 then (Instruction.LdY d_r, 1) else (Instruction.LdYQ d_r q, 1)
    else
      if q = 0 then (Instruction.StY d_r, 1) else (Instruction.StYQ d_r q, 1)
  else
    if ¬ is_store then
      if q = 0 then (Instruction.LdZ d_r, 1) else (Instruction.LdZQ d_r q, 1)
    else
      if q = 0 then (Instruction.StZ d_r, 1) else (Instruction.StZQ d_r q, 1)

/-- SREG after `CP d, r` (the `Cp` arm of `execute_inst` on the
register values `a`, `b`). -/
def sregCp (sreg a b : Nat) : Nat := flags_sub sreg a b (wsub8 a b) true

/-- SREG after `CPC d, r` (the `Cpc` arm of `execute_inst`): the result
subtracts the incoming carry, and `set_z` is false. -/
def sregCpc (sreg a b : Nat) : Nat :=
  flags_sub sreg a b (wsub8 (wsub8 a b) (sreg % 2)) false

/-- SREG after a `CP` on the first byte pair followed by `CPC` on each
remaining pair. -/
def compareChain (sreg : Nat) : List (Nat × Nat) → Nat
  | [] => sreg
  | p :: rest => rest.foldl (fun s q => sregCpc s q.1 q.2) (sregCp sreg p.1 p.2)

/-- A bus router with no observable behaviour.  PUSH and POP bypass the
router entirely (they use the clamped `read_raw`/`write_raw`), so any
bus serves for concrete PUSH/POP evaluations. -/
def nullBus : Bus where
  read_data := fun m _ => (m, 0)
  write_data := fun m _ _ => m
  write_bit := fun m _ _ _ => m

/-- A machine whose SP is the SPH mirror address 0x5E and whose R5
holds 0x42: the counterexample state for the PUSH/POP round trip. -/
def c5mach : Machine where
  cpu := { pc := 0, sp := 0x5E, sreg := 0, tick := 0, sleeping := false }
  mem :=
    { data := { size := DATA_SIZE, get := fun i => if i = 5 then 0x42 else 0 },
      flash := { size := FLASH_SIZE, get := fun _ => 0 } }

/-- Timer0's register addresses and interrupt vectors on the
ATmega32u4, as constructed in `Arduboy::new` (`lib.rs`). -/
def timer0Addrs : Timer8Addrs :=
  { tifr := 0x35, tccr_a := 0x44, tccr_b := 0x45, ocr_a := 0x47,
    ocr_b := 0x48, timsk := 0x6E, tcnt := 0x46,
    int_ovf := 0x2E, int_compa := 0x2A, int_compb := 0x2C,
    is_timer2 := false }

/-- Timer2's register addresses and ATmega328P vectors (`lib.rs`). -/
def timer2Addrs : Timer8Addrs :=
  { tifr := 0x37, tccr_a := 0xB0, tccr_b := 0xB1, ocr_a := 0xB3,
    ocr_b := 0xB4, timsk := 0x70, tcnt := 0xB2,
    int_ovf := 0x24, int_compa := 0x1C, int_compb := 0x20,
    is_timer2 := true }

/-- An 8-bit timer whose clock is stopped (prescaler 0, so `update` is
the identity); when `pend` is set it carries one pending, enabled
compare-A interrupt. -/
def timer8With (a : Timer8Addrs) (pend : Bool) : Timer8 :=
  { addrs := a, tick := 0, prescale := 0, cs := 0, mode := 0,
    wgm00 := false, wgm01 := false, wgm02 := false, com_a := 0, com_b := 0,
    ocr0a := 0, ocr0b := 0, tcnt_shadow := 0, tov0 := 0,
    ocf0a := if pend then 1 else 0, ocf0b := 0,
    toie0 := false, ocie0a := pend, ocie0b := false,
    dbg_ovf_count := 0, dbg_int_fire_count := 0 }

/-- A 16-bit timer with its clock stopped and no pending interrupts. -/
def timer16Stopped (tcnth tcntl iov ica icb icc : Nat) : Timer16 :=
  { tifr := 0, tccr_a := 0, tccr_b := 0, tccr_c := 0,
    tcnth_addr := tcnth, tcntl_addr := tcntl, tick := 0, prescale := 0,
    tcnt := 0, top := 0xFFFF, ctc := false, cs := 0,
    com_a := 0, com_b := 0, com_c := 0, ocr_a := 0, ocr_b := 0, ocr_c := 0,
    foc_a := false, foc_b := false, foc_c := false,
    tov := 0, ocf_a := 0, ocf_b := 0, ocf_c := 0,
    toie := false, ocie_a := false, ocie_b := false, ocie_c := false,
    int_ov := iov, int_compa := ica, int_compb := icb, int_compc := icc,
    old_wgm := 0 }

/-- Timer4 with its clock stopped and no pending interrupts. -/
def timer4Stopped : Timer4 :=
  { tick := 0, prescale := 0, cs := 0, wgm := 0, tccr_a := 0,
    tcnt := 0, tc4h := 0, ocr_a := 0, ocr_b := 0, ocr_c := 0xFF, ocr_d := 0,
    timsk := 0, tov := 0, ocf_a := 0, ocf_b := 0, ocf_d := 0 }

/-- An idle SPI controller. -/
def spiIdle : Spi :=
  { spif := false, wcol := false, spi2x := false, spie := false, spe := false }

/-- A disabled ADC. -/
def adcIdle : Adc :=
  { aden := false, adsc := false, adie := false, adif := false,
    adch := 0, adcl := 0 }

/-- An ATmega32u4 system whose SP is 0x0B00 — one past the top of the
2816-byte data space, a value the guest can set with two OUT
instructions to SPH/SPL — with the I flag set and one pending, enabled
Timer0 compare-A interrupt.  Every other peripheral is idle. -/
def c3sys : System :=
  { cpu := { pc := 0x0123, sp := 0x0B00, sreg := 0x80, tick := 0,
             sleeping := false },
    data := { size := DATA_SIZE, get := fun _ => 0 },
    timer0 := timer8With timer0Addrs true,
    timer1 := timer16Stopped 0x85 0x84 0x28 0x22 0x24 0x26,
    timer3 := timer16Stopped 0x95 0x94 0x46 0x40 0x42 0x44,
    timer4 := timer4Stopped,
    timer2 := timer8With timer2Addrs false,
    spi := spiIdle,
    adc := adcIdle,
    rng_state := 1,
    cpu_type := CpuType.Atmega32u4 }

/-- An all-zero 32 KiB flash buffer (the fixture for the HEX-parsing
theorems). -/
def c4flash0 : ByteBuf := { size := FLASH_SIZE, get := fun _ => 0 }

/-- The observable effects of interrupt entry on the CPU and the data
space, phrased against the pre-dispatch CPU state `c0`: PC at the
vector, I flag cleared in SREG (the 0x5F mirror is written last, so it
matches), SP decremented by two with the SPH/SPL mirrors updated, the
return address pushed with its high byte at SP and its low byte at the
lower address SP−1 (the same order as CALL), exactly 5 cycles charged,
and the sleeping flag cleared. -/
def entryEffects (c0 : Cpu) (s2 : System) (v : Nat) : Prop :=
  s2.cpu.pc = v % 65536 ∧
  s2.cpu.sreg = c0.sreg % 256 % 128 ∧
  s2.cpu.sp = wsub16 c0.sp 2 ∧
  s2.cpu.tick = (c0.tick + 5) % U64 ∧
  s2.cpu.sleeping = false ∧
  s2.data.get (c0.sp % 65536) = c0.pc % 65536 / 256 ∧
  s2.data.get (wsub16 c0.sp 1) = c0.pc % 65536 % 256 ∧
  s2.data.get SPH_ADDR = wsub16 c0.sp 2 / 256 ∧
  s2.data.get SPL_ADDR = wsub16 c0.sp 2 % 256 ∧
  s2.data.get SREG_ADDR = c0.sreg % 256 % 128

/-- Like `c3sys` but with SP = 0x0AFF (the reset value, inside the data
space): the interrupt is delivered successfully. -/
def c2sys : System :=
  { cpu := { pc := 0x0123, sp := 0x0AFF, sreg := 0x80, tick := 0,
             sleeping := false },
    data := { size := DATA_SIZE, get := fun _ => 0 },
    timer0 := timer8With timer0Addrs true,
    timer1 := timer16Stopped 0x85 0x84 0x28 0x22 0x24 0x26,
    timer3 := timer16Stopped 0x95 0x94 0x46 0x40 0x42 0x44,
    timer4 := timer4Stopped,
    timer2 := timer8With timer2Addrs false,
    spi := spiIdle,
    adc := adcIdle,
    rng_state := 1,
    cpu_type := CpuType.Atmega32u4 }

/-- The system after `c2sys.update_peripherals` (the projection is
total: a `getD` with an irrelevant default). -/
def c2out : System × Option Nat := (c2sys.update_peripherals).getD (c2sys, none)

/-!
# Theorems
-/

/-- C6: for every state of the W25Q128 flash engine, a chip-select
rising edge (`deselect`) transitions the engine to `Idle`, and the next
transferred byte is interpreted as a command byte (it goes through the
Idle-arm command dispatch `idleCommand`); in particular `0x9F` enters
the JEDEC-ID response, `0x03` starts collecting a read address, `0x06`
sets the write-enable latch, and an unrecognised byte leaves the engine
in `Idle`. -/
theorem c6_flash_cs_reset (f : FxFlash) (b : Nat) :
    (f.deselect).state = FxState.Idle ∧
    (f.deselect).transfer b = (f.deselect).idleCommand b ∧
    ((f.deselect).transfer 0x9F).1.state = FxState.JedecId 0 ∧
    ((f.deselect).transfer 0x03).1.state = FxState.ReadAddr 0x03 0 0 ∧
    ((f.deselect).transfer 0x06).1.write_enabled = true ∧
    ((f.deselect).transfer 0xAA).1.state = FxState.Idle := by
  refine ⟨rfl, rfl, rfl, rfl, rfl, rfl⟩

/-- C9: an 8-bit timer with prescaler `P > 0`, CTC mode (`WGM = 010`,
i.e. `mode = 2`), `COM_A = 1` (toggle on match) and `OCR0A = N > 0`
exposes the tone frequency `f_clk / (2·P·(N+1))`; in every other
configuration (timer stopped, non-CTC mode, `COM_A ≠ 1`, or
`OCR0A = 0`) the exposed tone is 0. -/
theorem c9_timer8_tone (t : Timer8) (clock : Nat) :
    (0 < t.prescale → t.mode = 2 → t.com_a = 1 → 0 < t.ocr0a % 256 →
      t.get_tone_hz clock
        = (clock : ℚ) / (2 * (t.prescale : ℚ) * ((t.ocr0a % 256 : Nat) + 1))) ∧
    ((t.prescale = 0 ∨ t.mode ≠ 2 ∨ t.com_a ≠ 1 ∨ t.ocr0a % 256 = 0) →
      t.get_tone_hz clock = 0) := by
  constructor
  · intro h1 h2 h3 h4
    simp only [Timer8.get_tone_hz]
    split_ifs with ha hb hc
    · omega
    · omega
    · omega
    · rfl
  · intro h
    simp only [Timer8.get_tone_hz]
    split_ifs with ha hb hc
    · rfl
    · rfl
    · rfl
    · omega

/-- Witness for C9 at a concrete configuration: prescaler 8, CTC,
toggle-on-match, OCR0A = 199, 16 MHz clock → 16 000 000 / (2·8·200)
= 5000 Hz. -/
theorem c9_timer8_tone_witness :
    ({ addrs := { tifr := 0x35, tccr_a := 0x44, tccr_b := 0x45, ocr_a := 0x47,
                  ocr_b := 0x48, timsk := 0x6E, tcnt := 0x46, int_ovf := 0x2E,
                  int_compa := 0x2A, int_compb := 0x2C, is_timer2 := false },
       tick := 0, prescale := 8, cs := 2, mode := 2,
       wgm00 := false, wgm01 := true, wgm02 := false,
       com_a := 1, com_b := 0, ocr0a := 199, ocr0b := 0, tcnt_shadow := 0,
       tov0 := 0, ocf0a := 0, ocf0b := 0,
       toie0 := false, ocie0a := false, ocie0b := false,
       dbg_ovf_count := 0, dbg_int_fire_count := 0 : Timer8 }).get_tone_hz
      16000000 = 5000 := by
  have h := (c9_timer8_tone
    { addrs := { tifr := 0x35, tccr_a := 0x44, tccr_b := 0x45, ocr_a := 0x47,
                 ocr_b := 0x48, timsk := 0x6E, tcnt := 0x46, int_ovf := 0x2E,
                 int_compa := 0x2A, int_compb := 0x2C, is_timer2 := false },
      tick := 0, prescale := 8, cs := 2, mode := 2,
      wgm00 := false, wgm01 := true, wgm02 := false,
      com_a := 1, com_b := 0, ocr0a := 199, ocr0b := 0, tcnt_shadow := 0,
      tov0 := 0, ocf0a := 0, ocf0b := 0,
      toie0 := false, ocie0a := false, ocie0b := false,
      dbg_ovf_count := 0, dbg_int_fire_count := 0 } 16000000).1
    (by norm_num) rfl rfl (by norm_num)
  rw [h]
  norm_num

/-- C10: the PC clamp at the top of each `run_frame` iteration resets
an out-of-flash PC to 0 before fetching, so the fetch word address is
always strictly below `FLASH_SIZE / 2` (its byte address is inside the
32 KiB flash), and a PC whose byte address is at or beyond the end of
flash restarts at the reset vector 0. -/
theorem c10_run_frame_pc_clamp (pc : Nat) :
    run_frame_fetch_pc FLASH_SIZE pc < FLASH_SIZE / 2 ∧
    run_frame_fetch_pc FLASH_SIZE pc * 2 < FLASH_SIZE ∧
    (pc * 2 ≥ FLASH_SIZE → run_frame_fetch_pc FLASH_SIZE pc = 0) := by
  unfold run_frame_fetch_pc FLASH_SIZE
  split_ifs with h
  · refine ⟨by omega, by omega, fun _ => rfl⟩
  · exact ⟨by omega, by omega, fun hc => absurd hc h⟩

set_option maxHeartbeats 4000000 in
/-- C7: every opcode word in the LDD/STD encoding group (upper nibble
`0x8` or `0xA`) decodes — regardless of the following word — to the
one-word LDD/STD/LD/ST instruction whose 6-bit displacement is
assembled as `q5<<5 | q4q3<<3 | q2q1q0` from opcode bits 13, 11:10, 2:0
and whose register index comes from bits 8:4, with `q = 0` giving the
plain LD/ST Y/Z form. -/
theorem c7_ldd_std_displacement (w nxt : Nat) (hw : w < 65536)
    (h : bits w 12 4 = 0x8 ∨ bits w 12 4 = 0xA) :
    decode w nxt = lddStdSpec w := by
  have hw16 : w % 65536 = w := Nat.mod_eq_of_lt hw
  have hnb : w / 4096 % 16 = 0x8 ∨ w / 4096 % 16 = 0xA := by
    simpa only [bits] using h
  have h32 : decode32 w (nxt % 65536) = none := by
    unfold decode32
    rw [if_neg (by simp only [bits]; omega), if_neg (by simp only [bits]; omega),
        if_neg (by simp only [bits]; omega), if_neg (by simp only [bits]; omega)]
  have hfx : decodeFixed w = none := by
    unfold decodeFixed
    rw [if_neg (by omega), if_neg (by intro hc; omega), if_neg (fun hc => by omega),
        if_neg (by omega), if_neg (by intro hc; omega), if_neg (fun hc => by omega),
        if_neg (by omega), if_neg (by intro hc; omega), if_neg (fun hc => by omega),
        if_neg (by omega), if_neg (by intro hc; omega), if_neg (fun hc => by omega),
        if_neg (by omega), if_neg (by intro hc; omega), if_neg (fun hc => by omega),
        if_neg (by omega), if_neg (by intro hc; omega), if_neg (fun hc => by omega),
        if_neg (by omega), if_neg (by intro hc; omega), if_neg (fun hc => by omega),
        if_neg (by omega), if_neg (by intro hc; omega), if_neg (fun hc => by omega),
        if_neg (by omega)]
  have hup : decodeUpper w = decodeLddStd w := by
    unfold decodeUpper
    rw [if_neg (by simp only [bits]; omega), if_neg (by simp only [bits]; omega),
        if_neg (by simp only [bits]; omega), if_neg (by simp only [bits]; omega),
        if_neg (by simp only [bits]; omega), if_neg (by simp only [bits]; omega),
        if_neg (by simp only [bits]; omega), if_neg (by simp only [bits]; omega),
        if_pos h]
  show (match decode32 (w % 65536) (nxt % 65536) with
    | some r => r
    | none =>
      match decodeFixed (w % 65536) with
      | some r => r
      | none => decodeUpper (w % 65536)) = lddStdSpec w
  rw [hw16, h32, hfx, hup]
  rfl

set_option maxHeartbeats 1000000 in
/-- Witness for C7 at the word 0xAFFF (`STD Y+63, R31`, the large-offset
case from the repository's own test suite): q5 = 1, q4q3 = 11,
q2q1q0 = 111 reassemble to q = 63 and the register field is 31; also
the q = 0 word 0x8008 gives the plain `LD R0, Y`. -/
theorem c7_ldd_std_displacement_witness :
    decode 0xAFFF 0 = (Instruction.StYQ 31 63, 1) ∧
    lddStdSpec 0xAFFF = (Instruction.StYQ 31 63, 1) ∧
    decode 0x8008 0 = (Instruction.LdY 0, 1) := by
  refine ⟨?_, by rfl, by rfl⟩
  have h := c7_ldd_std_displacement 0xAFFF 0 (by norm_num) (by right; rfl)
  rw [h]
  rfl

/-!
### C1: the SBC/SBCI/CPC Z-bit and multi-byte compare chains
-/

lemma b2n_le_one (b : Bool) : b2n b ≤ 1 := by cases b <;> simp [b2n]

lemma sreg_assemble_bit1 (s8 A B C D E F : Nat) (hA : A ≤ 1) (hB : B ≤ 1)
    (hC : C ≤ 1) (hD : D ≤ 1) (hE : E ≤ 1) (hF : F ≤ 1) :
    (s8 / 64 * 64 + A * 32 + B * 16 + C * 8 + D * 4 + E * 2 + F) / 2 % 2 = E := by
  omega

lemma sreg_assemble_bit0 (s8 A B C D E F : Nat) (hF : F ≤ 1) :
    (s8 / 64 * 64 + A * 32 + B * 16 + C * 8 + D * 4 + E * 2 + F) % 2 = F := by
  omega

/-- The Z bit written by `flags_sub` with `set_z = false` (SBC/SBCI/CPC):
cleared when the 8-bit result is non-zero, otherwise the previous Z. -/
lemma flags_sub_z_false (sreg rd rr r : Nat) :
    bit (flags_sub sreg rd rr r false) 1
      = if r % 256 = 0 then bit (sreg % 256) 1 else 0 := by
  simp only [flags_sub, bit, pow_one, Bool.false_eq_true, if_false]
  by_cases hr : r % 256 = 0
  · rw [if_pos hr, if_neg (by omega)]
    rw [sreg_assemble_bit1 _ _ _ _ _ _ _ (b2n_le_one _) (b2n_le_one _)
      (b2n_le_one _) (b2n_le_one _) (by omega) (b2n_le_one _)]
  · rw [if_neg hr, if_pos (by omega)]
    rw [sreg_assemble_bit1 _ _ _ _ _ _ _ (b2n_le_one _) (b2n_le_one _)
      (b2n_le_one _) (b2n_le_one _) (by omega) (b2n_le_one _)]

/-- The Z bit written by `flags_sub` with `set_z = true` (SUB/SUBI/CP/CPI). -/
lemma flags_sub_z_true (sreg rd rr r : Nat) :
    bit (flags_sub sreg rd rr r true) 1 = if r % 256 = 0 then 1 else 0 := by
  simp only [flags_sub, bit, pow_one, if_true]
  by_cases hr : r % 256 = 0
  · rw [if_pos hr]
    exact sreg_assemble_bit1 _ _ _ _ _ _ _ (b2n_le_one _) (b2n_le_one _)
      (b2n_le_one _) (b2n_le_one _) (by omega) (b2n_le_one _)
  · rw [if_neg hr]
    exact sreg_assemble_bit1 _ _ _ _ _ _ _ (b2n_le_one _) (b2n_le_one _)
      (b2n_le_one _) (b2n_le_one _) (by omega) (b2n_le_one _)

/-- `flags_sub` on `rd = rr` with result 0 leaves the carry clear. -/
lemma flags_sub_c_self (sreg a : Nat) (set_z : Bool) :
    flags_sub sreg a a 0 set_z % 2 = 0 := by
  simp only [flags_sub]
  rw [sreg_assemble_bit0 _ _ _ _ _ _ _ (b2n_le_one _)]
  simp [bitB, b2n]

lemma flags_sub_lt_256 (sreg rd rr r : Nat) (set_z : Bool) :
    flags_sub sreg rd rr r set_z < 256 := by
  simp only [flags_sub]
  have h1 := b2n_le_one ((!bitB (rd % 256) 3 && bitB (rr % 256) 3)
    || (bitB (rr % 256) 3 && bitB (r % 256) 3)
    || (bitB (r % 256) 3 && !bitB (rd % 256) 3))
  have h2 := b2n_le_one (Bool.xor (bitB (r % 256) 7)
    ((bitB (rd % 256) 7 && !bitB (rr % 256) 7 && !bitB (r % 256) 7)
      || (!bitB (rd % 256) 7 && bitB (rr % 256) 7 && bitB (r % 256) 7)))
  have h3 := b2n_le_one ((bitB (rd % 256) 7 && !bitB (rr % 256) 7 && !bitB (r % 256) 7)
    || (!bitB (rd % 256) 7 && bitB (rr % 256) 7 && bitB (r % 256) 7))
  have h4 := b2n_le_one (bitB (r % 256) 7)
  have h5 := b2n_le_one ((!bitB (rd % 256) 7 && bitB (rr % 256) 7)
    || (bitB (rr % 256) 7 && bitB (r % 256) 7)
    || (bitB (r % 256) 7 && !bitB (rd % 256) 7))
  split_ifs <;> omega

lemma wsub8_self (a : Nat) : wsub8 a a = 0 := by
  simp only [wsub8]; omega

lemma wsub8_eq_zero_iff (a b : Nat) (ha : a < 256) (hb : b < 256) :
    wsub8 a b = 0 ↔ a = b := by
  simp only [wsub8]; omega

lemma wsub8_lt_256 (a b : Nat) : wsub8 a b < 256 := by
  simp only [wsub8]; omega

set_option maxHeartbeats 1600000 in
/-- The `CPC` fold over the remaining byte pairs: starting from an SREG
with Z set and C clear it ends with Z set iff every pair is equal (and
keeps C clear when all are equal); starting with Z clear it ends with
Z clear. -/
lemma cpc_fold_spec (ps : List (Nat × Nat)) : ∀ s : Nat, s < 256 →
    (∀ q ∈ ps, q.1 < 256 ∧ q.2 < 256) →
    ((bit s 1 = 1 ∧ s % 2 = 0 →
      (bit (ps.foldl (fun s q => sregCpc s q.1 q.2) s) 1 = 1
        ↔ ∀ q ∈ ps, q.1 = q.2) ∧
      ((∀ q ∈ ps, q.1 = q.2) →
        ps.foldl (fun s q => sregCpc s q.1 q.2) s % 2 = 0)) ∧
     (bit s 1 = 0 → bit (ps.foldl (fun s q => sregCpc s q.1 q.2) s) 1 = 0)) := by
  induction ps with
  | nil =>
      intro s hs _
      refine ⟨fun h => ⟨by simpa using h.1, fun _ => h.2⟩, fun h => by simpa using h⟩
  | cons q rest ih =>
      intro s hs hb
      have hq := hb q (List.mem_cons_self q rest)
      have hbr : ∀ p ∈ rest, p.1 < 256 ∧ p.2 < 256 :=
        fun p hp => hb p (List.mem_cons_of_mem q hp)
      have hlt : sregCpc s q.1 q.2 < 256 := flags_sub_lt_256 _ _ _ _ _
      have ihs := ih (sregCpc s q.1 q.2) hlt hbr
      constructor
      · rintro ⟨hz, hc⟩
        by_cases he : q.1 = q.2
        · -- equal pair: result 0, Z preserved (=1), C stays 0
          have hr0 : wsub8 (wsub8 q.1 q.2) (s % 2) = 0 := by
            rw [he, wsub8_self, hc, wsub8_self]
          have hz2 : bit (sregCpc s q.1 q.2) 1 = 1 := by
            simp only [sregCpc, hr0, flags_sub_z_false]
            rw [if_pos (by norm_num), Nat.mod_eq_of_lt hs]
            exact hz
          have hc2 : sregCpc s q.1 q.2 % 2 = 0 := by
            unfold sregCpc
            rw [hr0, he]
            exact flags_sub_c_self _ _ _
          have h2 := (ihs.1 ⟨hz2, hc2⟩)
          constructor
          · simp only [List.foldl_cons, List.mem_cons]
            rw [h2.1]
            constructor
            · intro hall p hp
              rcases hp with hp | hp
              · rw [hp]; exact he
              · exact hall p hp
            · intro hall p hp
              exact hall p (Or.inr hp)
          · intro hall
            simp only [List.foldl_cons]
            exact h2.2 (fun p hp => hall p (List.mem_cons_of_mem q hp))
        · -- unequal pair: result non-zero, Z cleared, stays cleared
          have hr : wsub8 (wsub8 q.1 q.2) (s % 2) ≠ 0 := by
            have h1 := hq.1
            have h2 := hq.2
            simp only [wsub8, hc]
            omega
          constructor
          · simp only [List.foldl_cons, List.mem_cons]
            have hz0 : bit (sregCpc s q.1 q.2) 1 = 0 := by
              simp only [sregCpc, flags_sub_z_false]
              rw [if_neg (by rw [Nat.mod_eq_of_lt (wsub8_lt_256 _ _)]; exact hr)]
            rw [ihs.2 hz0]
            constructor
            · intro h01; exact absurd h01 (by norm_num)
            · intro hall; exact absurd (hall q (Or.inl rfl)) he
          · intro hall
            exact absurd (hall q (List.mem_cons_self q rest)) he
      · intro hz
        have hz0 : bit (sregCpc s q.1 q.2) 1 = 0 := by
          simp only [sregCpc, flags_sub_z_false]
          by_cases hr : wsub8 (wsub8 q.1 q.2) (s % 2) % 256 = 0
          · rw [if_pos hr, Nat.mod_eq_of_lt hs]; exact hz
          · rw [if_neg hr]
        simpa only [List.foldl_cons] using ihs.2 hz0

set_option maxHeartbeats 2000000 in
/-- C1: executing SBC, SBCI or CPC writes SREG through `flags_sub` with
`set_z = false` (conjuncts 1–3, for every bus behaviour, machine state
and operands; CP uses `set_z = true`, conjunct 4), whose Z bit is 0 when
the 8-bit result is non-zero and the previous Z when the result is zero
(conjunct 5); consequently after a CP on the first byte pair followed by
a chain of CPC over the remaining pairs, Z is set iff every byte pair
was equal (conjunct 6). -/
theorem c1_sbc_sbci_cpc_z_chain :
    (∀ (bus : Bus) (m : Machine) (d r sz : Nat),
      (execute_inst bus m (Instruction.Sbc d r) sz).1.cpu.sreg
        = flags_sub m.cpu.sreg (m.reg d) (m.reg r)
            (wsub8 (wsub8 (m.reg d) (m.reg r)) (m.cpu.sreg % 2)) false) ∧
    (∀ (bus : Bus) (m : Machine) (d k sz : Nat),
      (execute_inst bus m (Instruction.Sbci d k) sz).1.cpu.sreg
        = flags_sub m.cpu.sreg (m.reg d) k
            (wsub8 (wsub8 (m.reg d) k) (m.cpu.sreg % 2)) false) ∧
    (∀ (bus : Bus) (m : Machine) (d r sz : Nat),
      (execute_inst bus m (Instruction.Cpc d r) sz).1.cpu.sreg
        = sregCpc m.cpu.sreg (m.reg d) (m.reg r)) ∧
    (∀ (bus : Bus) (m : Machine) (d r sz : Nat),
      (execute_inst bus m (Instruction.Cp d r) sz).1.cpu.sreg
        = sregCp m.cpu.sreg (m.reg d) (m.reg r)) ∧
    (∀ sreg rd rr r : Nat,
      bit (flags_sub sreg rd rr r false) 1
        = if r % 256 = 0 then bit (sreg % 256) 1 else 0) ∧
    (∀ (s a b : Nat) (ps : List (Nat × Nat)), a < 256 → b < 256 →
      (∀ q ∈ ps, q.1 < 256 ∧ q.2 < 256) →
      (bit (compareChain s ((a, b) :: ps)) 1 = 1 ↔
        ∀ q ∈ (a, b) :: ps, q.1 = q.2)) := by
  refine ⟨fun _ _ _ _ _ => rfl, fun _ _ _ _ _ => rfl, fun _ _ _ _ _ => rfl,
    fun _ _ _ _ _ => rfl, flags_sub_z_false, ?_⟩
  intro s a b ps ha hb hbs
  show bit (ps.foldl (fun s q => sregCpc s q.1 q.2) (sregCp s a b)) 1 = 1 ↔ _
  have hlt : sregCp s a b < 256 := flags_sub_lt_256 _ _ _ _ _
  have hfold := cpc_fold_spec ps (sregCp s a b) hlt hbs
  by_cases he : a = b
  · have hz1 : bit (sregCp s a b) 1 = 1 := by
      unfold sregCp
      rw [flags_sub_z_true,
        if_pos (by rw [Nat.mod_eq_of_lt (wsub8_lt_256 a b), he, wsub8_self])]
    have hc1 : sregCp s a b % 2 = 0 := by
      unfold sregCp
      rw [he, wsub8_self]
      exact flags_sub_c_self _ _ _
    rw [(hfold.1 ⟨hz1, hc1⟩).1]
    simp only [List.mem_cons]
    constructor
    · intro hall p hp
      rcases hp with hp | hp
      · rw [hp]; exact he
      · exact hall p hp
    · intro hall p hp
      exact hall p (Or.inr hp)
  · have hzz : ¬ wsub8 a b % 256 = 0 := by
      rw [Nat.mod_eq_of_lt (wsub8_lt_256 a b)]
      exact fun hh => he ((wsub8_eq_zero_iff a b ha hb).mp hh)
    have hz0 : bit (sregCp s a b) 1 = 0 := by
      unfold sregCp
      rw [flags_sub_z_true, if_neg hzz]
    rw [hfold.2 hz0]
    constructor
    · intro h01; exact absurd h01 (by norm_num)
    · intro hall; exact absurd (hall (a, b) (List.mem_cons_self _ _)) he

/-- Witness for C1: a concrete all-equal chain
`CP 5,5; CPC 9,9; CPC 0xFF,0xFF` ends with Z = 1, and the hypotheses of
the chain conjunct hold at these bytes. -/
theorem c1_sbc_sbci_cpc_z_chain_witness :
    bit (compareChain 0 ((5, 5) :: [(9, 9), (0xFF, 0xFF)])) 1 = 1 := by
  have h := c1_sbc_sbci_cpc_z_chain.2.2.2.2.2 0 5 5 [(9, 9), (0xFF, 0xFF)]
    (by norm_num) (by norm_num) (by simp)
  rw [h]
  simp

/-!
### C5: PUSH/POP round trip
-/

/-- C5 counterexample: with initial SP = 0x5E (the SPH mirror address),
`PUSH R5; POP R10` does **not** restore the pushed value — the SPH
mirror store of the PUSH overwrites the byte just pushed, and POP reads
back 0 instead of 0x42.  (The claim asserts `r' == r` for *any* initial
SP.) -/
theorem c5_push_pop_counterexample :
    c5mach.reg 5 = 0x42 ∧
    (execute_inst nullBus
      (execute_inst nullBus c5mach (Instruction.Push 5) 1).1
      (Instruction.Pop 10) 1).1.reg 10 = 0 :=
  ⟨rfl, rfl⟩

/-- The `Push` arm of `execute_inst`, written out (provable by `rfl`):
store the register at SP via the clamped `write_raw`, decrement SP,
mirror SPH/SPL. -/
lemma execute_push_eq (bus : Bus) (m : Machine) (r sz : Nat) :
    execute_inst bus m (Instruction.Push r) sz =
      (Machine.mirrorSp
        { cpu := { pc := wadd16 m.cpu.pc sz, sp := wsub16 m.cpu.sp 1,
                   sreg := m.cpu.sreg, tick := m.cpu.tick,
                   sleeping := m.cpu.sleeping },
          mem := m.mem.write_raw (m.cpu.sp % 65536) (m.reg r) }, 2) := rfl

/-- The `Pop` arm of `execute_inst`, written out (provable by `rfl`):
increment SP, mirror SPH/SPL, then load the byte at the new SP. -/
lemma execute_pop_eq (bus : Bus) (m : Machine) (d sz : Nat) :
    execute_inst bus m (Instruction.Pop d) sz =
      ((Machine.mirrorSp
          { cpu := { pc := wadd16 m.cpu.pc sz, sp := wadd16 m.cpu.sp 1,
                     sreg := m.cpu.sreg, tick := m.cpu.tick,
                     sleeping := m.cpu.sleeping },
            mem := m.mem }).setReg d
        ((Machine.mirrorSp
          { cpu := { pc := wadd16 m.cpu.pc sz, sp := wadd16 m.cpu.sp 1,
                     sreg := m.cpu.sreg, tick := m.cpu.tick,
                     sleeping := m.cpu.sleeping },
            mem := m.mem }).mem.read_raw (wadd16 m.cpu.sp 1)), 2) := rfl

lemma vset_get_eq (m : ByteBuf) (i v : Nat) : (m.vset i v).get i = v := by
  simp [ByteBuf.vset]

lemma vset_get_ne (m : ByteBuf) (i j v : Nat) (h : j ≠ i) :
    (m.vset i v).get j = m.get j := by
  simp [ByteBuf.vset, h]

lemma vset_size (m : ByteBuf) (i v : Nat) : (m.vset i v).size = m.size := rfl

set_option maxHeartbeats 2000000 in
/-- C5 (amended): for every initial SP, `PUSH r; POP d` restores SP, and
the SPH/SPL mirrors equal SP after each of the two instructions (after
the POP, provided the destination register index is a real register
number `d < 32`, as every decoded POP satisfies — otherwise the register
write itself could land on a mirror address); and whenever the stack
byte lands inside the data space at an address other than the SPL/SPH
mirrors (0x5D/0x5E), POP loads the pushed register value (`r' == r`). -/
theorem c5_push_pop_roundtrip (bus : Bus) (m : Machine) (r d : Nat) :
    (execute_inst bus (execute_inst bus m (Instruction.Push r) 1).1
        (Instruction.Pop d) 1).1.cpu.sp = m.cpu.sp % 65536 ∧
    ((execute_inst bus m (Instruction.Push r) 1).1.mem.data.get SPH_ADDR
        = (execute_inst bus m (Instruction.Push r) 1).1.cpu.sp / 256 ∧
      (execute_inst bus m (Instruction.Push r) 1).1.mem.data.get SPL_ADDR
        = (execute_inst bus m (Instruction.Push r) 1).1.cpu.sp % 256) ∧
    (d < 32 →
      (execute_inst bus (execute_inst bus m (Instruction.Push r) 1).1
        (Instruction.Pop d) 1).1.mem.data.get SPH_ADDR
        = (execute_inst bus (execute_inst bus m (Instruction.Push r) 1).1
            (Instruction.Pop d) 1).1.cpu.sp / 256 ∧
      (execute_inst bus (execute_inst bus m (Instruction.Push r) 1).1
        (Instruction.Pop d) 1).1.mem.data.get SPL_ADDR
        = (execute_inst bus (execute_inst bus m (Instruction.Push r) 1).1
            (Instruction.Pop d) 1).1.cpu.sp % 256) ∧
    (m.cpu.sp % 65536 < m.mem.data.size → m.cpu.sp % 65536 ≠ SPL_ADDR →
      m.cpu.sp % 65536 ≠ SPH_ADDR →
      (execute_inst bus (execute_inst bus m (Instruction.Push r) 1).1
        (Instruction.Pop d) 1).1.reg d = m.reg r) := by
  refine ⟨?_, ⟨?_, ?_⟩, fun hd => ⟨?_, ?_⟩, ?_⟩
  · simp only [execute_push_eq, execute_pop_eq]
    simp only [Machine.mirrorSp, Machine.setReg]
    simp only [wadd16, wsub16]
    omega
  · simp only [execute_push_eq, Machine.mirrorSp]
    simp only [SPH_ADDR, SPL_ADDR, wsub16]
    rw [vset_get_ne _ _ _ _ (by norm_num), vset_get_eq]
    try omega
  · simp only [execute_push_eq, Machine.mirrorSp]
    simp only [SPH_ADDR, SPL_ADDR, wsub16]
    rw [vset_get_eq]
    try omega
  · simp only [execute_push_eq, execute_pop_eq]
    simp only [Machine.mirrorSp, Machine.setReg]
    simp only [Memory.set_reg]
    simp only [SPH_ADDR, SPL_ADDR, wadd16, wsub16]
    rw [vset_get_ne _ _ _ _ (by omega), vset_get_ne _ _ _ _ (by norm_num),
      vset_get_eq]
    try omega
  · simp only [execute_push_eq, execute_pop_eq]
    simp only [Machine.mirrorSp, Machine.setReg]
    simp only [Memory.set_reg]
    simp only [SPH_ADDR, SPL_ADDR, wadd16, wsub16]
    rw [vset_get_ne _ _ _ _ (by omega), vset_get_eq]
    try omega
  · intro hlt h5d h5e
    simp only [execute_push_eq, execute_pop_eq]
    simp only [Machine.mirrorSp, Machine.setReg, Machine.reg]
    simp only [SPL_ADDR, SPH_ADDR] at h5d h5e
    simp only [Memory.read_raw, Memory.write_raw, Memory.reg, Memory.set_reg,
      wadd16, wsub16, SPH_ADDR, SPL_ADDR]
    rw [vset_get_eq]
    rw [if_pos hlt]
    simp only [vset_size]
    rw [show (((m.cpu.sp % 65536 + 65536 - 1 % 65536) % 65536 + 1) % 65536)
        = m.cpu.sp % 65536 from by omega]
    rw [if_pos hlt]
    rw [vset_get_ne _ _ _ _ (by omega), vset_get_ne _ _ _ _ (by omega),
      vset_get_ne _ _ _ _ (by omega), vset_get_ne _ _ _ _ (by omega),
      vset_get_eq]

/-- Witness for C5 (amended) at a concrete in-range SP: with SP =
0x0AFF and R7 = 0x99, `PUSH R7; POP R3` restores SP and loads 0x99. -/
theorem c5_push_pop_roundtrip_witness :
    (execute_inst nullBus
      (execute_inst nullBus
        { cpu := { pc := 0, sp := 0x0AFF, sreg := 0, tick := 0, sleeping := false },
          mem := { data := { size := DATA_SIZE, get := fun i => if i = 7 then 0x99 else 0 },
                   flash := { size := FLASH_SIZE, get := fun _ => 0 } } }
        (Instruction.Push 7) 1).1
      (Instruction.Pop 3) 1).1.reg 3 = 0x99 := by
  have h := (c5_push_pop_roundtrip nullBus
    { cpu := { pc := 0, sp := 0x0AFF, sreg := 0, tick := 0, sleeping := false },
      mem := { data := { size := DATA_SIZE, get := fun i => if i = 7 then 0x99 else 0 },
               flash := { size := FLASH_SIZE, get := fun _ => 0 } } }
    7 3).2.2.2 (by norm_num [DATA_SIZE]) (by norm_num [SPL_ADDR]) (by norm_num [SPH_ADDR])
  rw [h]
  rfl

/-!
### C8: cycle costs and tick monotonicity
-/

set_option maxHeartbeats 4000000 in
/-- Every `execute_inst` arm returns a cycle cost between 1 and 4, for
every bus behaviour, machine state, instruction and size. -/
lemma exec_cycle_bounds (bus : Bus) (m : Machine) (inst : Instruction) (sz : Nat) :
    1 ≤ (execute_inst bus m inst sz).2 ∧ (execute_inst bus m inst sz).2 ≤ 4 := by
  cases inst <;> simp only [execute_inst, apply_ite Prod.snd] <;> first
    | (split_ifs <;> omega)
    | omega

set_option maxHeartbeats 6000000 in
/-- No `execute_inst` arm changes the cycle counter, provided the bus
router does not (the real router never touches `tick`). -/
lemma exec_preserves_tick (bus : Bus) (m : Machine) (inst : Instruction) (sz : Nat)
    (hr : ∀ (m2 : Machine) (a : Nat), (bus.read_data m2 a).1.cpu.tick = m2.cpu.tick)
    (hw : ∀ (m2 : Machine) (a v : Nat), (bus.write_data m2 a v).cpu.tick = m2.cpu.tick)
    (hb : ∀ (m2 : Machine) (a b : Nat) (v : Bool),
      (bus.write_bit m2 a b v).cpu.tick = m2.cpu.tick) :
    (execute_inst bus m inst sz).1.cpu.tick = m.cpu.tick := by
  cases inst <;> simp only [execute_inst] <;> (try split_ifs) <;>
    simp only [Machine.sync_sreg, Machine.mirrorSp, Machine.setReg,
      Machine.withSreg, Machine.withPc, Machine.push_word, Machine.pop_word,
      skipNext, hr, hw, hb]

/-- C8: `execute_inst` returns a cycle cost of at least 1 for every
instruction variant (conjunct 1); an `Unknown` opcode executes as a
one-cycle NOP that only advances PC (conjunct 2); and `step` — which
charges the returned cost to the tick counter — strictly increases the
tick by the instruction's cost (between 1 and 4) whenever the bus
router preserves the tick and the 64-bit counter does not wrap
(conjunct 3). -/
theorem c8_cycle_cost :
    (∀ (bus : Bus) (m : Machine) (inst : Instruction) (sz : Nat),
      1 ≤ (execute_inst bus m inst sz).2) ∧
    (∀ (bus : Bus) (m : Machine) (w sz : Nat),
      execute_inst bus m (Instruction.Unknown w) sz
        = ({ m with cpu := { m.cpu with pc := wadd16 m.cpu.pc sz } }, 1)) ∧
    (∀ (bus : Bus) (m : Machine),
      (∀ (m2 : Machine) (a : Nat), (bus.read_data m2 a).1.cpu.tick = m2.cpu.tick) →
      (∀ (m2 : Machine) (a v : Nat), (bus.write_data m2 a v).cpu.tick = m2.cpu.tick) →
      (∀ (m2 : Machine) (a b : Nat) (v : Bool),
        (bus.write_bit m2 a b v).cpu.tick = m2.cpu.tick) →
      m.cpu.tick + 4 < U64 →
      m.cpu.tick < (step bus m).cpu.tick ∧
      (step bus m).cpu.tick ≤ m.cpu.tick + 4) := by
  refine ⟨fun bus m inst sz => (exec_cycle_bounds bus m inst sz).1,
    fun _ _ _ _ => rfl, ?_⟩
  intro bus m hr hw hb hov
  simp only [step]
  set di := decode (m.mem.read_program_word (m.cpu.pc % 65536))
    (if m.cpu.pc % 65536 + 1 < FLASH_SIZE / 2
      then m.mem.read_program_word (m.cpu.pc % 65536 + 1) else 0) with hdi
  have hcb := exec_cycle_bounds bus m di.1 di.2
  have ht := exec_preserves_tick bus m di.1 di.2 hr hw hb
  rw [ht]
  simp only [U64] at hov ⊢
  constructor
  · have : (m.cpu.tick + (execute_inst bus m di.1 di.2).2)
        % 18446744073709551616 = m.cpu.tick + (execute_inst bus m di.1 di.2).2 :=
      Nat.mod_eq_of_lt (by omega)
    omega
  · have : (m.cpu.tick + (execute_inst bus m di.1 di.2).2)
        % 18446744073709551616 = m.cpu.tick + (execute_inst bus m di.1 di.2).2 :=
      Nat.mod_eq_of_lt (by omega)
    omega

/-- Witness for C8 conjunct 3 at a concrete machine (tick 100, empty
flash, so the fetched word decodes to NOP): one step advances the tick. -/
theorem c8_cycle_cost_witness :
    (100 : Nat) <
      (step nullBus
        { cpu := { pc := 0, sp := 0x0AFF, sreg := 0, tick := 100, sleeping := false },
          mem := { data := { size := DATA_SIZE, get := fun _ => 0 },
                   flash := { size := FLASH_SIZE, get := fun _ => 0 } } }).cpu.tick :=
  (c8_cycle_cost.2.2 nullBus
    { cpu := { pc := 0, sp := 0x0AFF, sreg := 0, tick := 100, sleeping := false },
      mem := { data := { size := DATA_SIZE, get := fun _ => 0 },
               flash := { size := FLASH_SIZE, get := fun _ => 0 } } }
    (fun _ _ => rfl) (fun _ _ _ => rfl) (fun _ _ _ _ => rfl)
    (by norm_num [U64])).1

/-- Witness for C10 at PC = 20000 (byte address 40000 ≥ 32768): the PC
is reset to 0. -/
theorem c10_run_frame_pc_clamp_witness :
    20000 * 2 ≥ FLASH_SIZE ∧ run_frame_fetch_pc FLASH_SIZE 20000 = 0 :=
  ⟨by norm_num [FLASH_SIZE], (c10_run_frame_pc_clamp 20000).2.2 (by norm_num [FLASH_SIZE])⟩

/-- C3: interrupt delivery CAN abort the host.  `do_interrupt` stores
the return address with direct `data[sp]` indexing instead of the
clamped `write_raw` used everywhere else (including `push_word`), so on
the concrete system `c3sys` — SP = 0x0B00, one past the data space, a
value the guest reaches with two OUT instructions to SPH/SPL, with the
I flag set and an enabled pending Timer0 compare-A interrupt —
delivering the interrupt panics (`none`), and so does the whole
`update_peripherals` pass, contradicting the claim that no guest
behaviour terminates the host process. -/
theorem c3_interrupt_entry_oob_panic :
    do_interrupt c3sys.cpu c3sys.data 0x2A = none ∧
    c3sys.update_peripherals = none :=
  ⟨rfl, rfl⟩

/-!
### C4: HEX parse errors and the flash buffer
-/

/-- A record whose bytes parse but whose checksum is non-zero makes
`parse_hex_go` return the checksum error immediately, with the flash
exactly as it was when that line was reached: the failing record itself
writes nothing. -/
lemma c4go_checksum_error (line : List Char) (rest : List (List Char))
    (max_addr base_addr : Nat) (flash : ByteBuf) (body : List Char)
    (bytes : List Nat)
    (h1 : trimChars line = ':' :: body)
    (h2 : hex_line_to_bytes body = Except.ok bytes)
    (h3 : 5 ≤ bytes.length)
    (h4 : bytes.foldl (fun acc b => (acc + b) % 256) 0 ≠ 0) :
    parse_hex_go (line :: rest) max_addr base_addr flash =
      some (Except.error ("Checksum error: sum="
        ++ toString (bytes.foldl (fun acc b => (acc + b) % 256) 0)), flash) := by
  simp only [parse_hex_go, h1, h2]
  rw [if_neg (by simp), if_neg (by omega), if_pos h4]

/-- Parsing the two-line image `:0100000042BD` (a valid one-byte data
record) followed by `:00000001FE` (an EOF record with a bad checksum)
returns the checksum error, with the first record's byte already
written into flash — `parse_hex` streams records into the buffer as it
goes. -/
lemma c4go_stream (flash : ByteBuf) (h : 0 < flash.size) :
    parse_hex ":0100000042BD\n:00000001FE" flash =
      some (Except.error "Checksum error: sum=255", flash.vset 0 0x42) := by
  have hl : rustLines ":0100000042BD\n:00000001FE" =
      [":0100000042BD".toList, ":00000001FE".toList] := rfl
  have e1 : trimChars ":0100000042BD".toList = ':' :: "0100000042BD".toList := rfl
  have e2 : hex_line_to_bytes "0100000042BD".toList =
      Except.ok [1, 0, 0, 0, 0x42, 0xBD] := rfl
  have e3 : trimChars ":00000001FE".toList = ':' :: "00000001FE".toList := rfl
  have e4 : hex_line_to_bytes "00000001FE".toList =
      Except.ok [0, 0, 0, 1, 0xFE] := rfl
  unfold parse_hex
  rw [hl]
  simp only [parse_hex_go, e1, e2, e3, e4]
  norm_num
  simp only [hexWriteLoop]
  rw [if_pos (by simpa using h)]
  norm_num [hexWriteLoop]
  rfl

/-- C4 counterexample: on the all-zero flash, parsing a valid one-byte
data record followed by a bad-checksum EOF record returns a string
error, yet the returned flash holds 0x42 at address 0 where the input
flash held 0 — the flash buffer is **not** left unchanged on failure,
refuting the claim as stated. -/
theorem c4_parse_hex_flash_changed :
    parse_hex ":0100000042BD\n:00000001FE" c4flash0 =
      some (Except.error "Checksum error: sum=255", c4flash0.vset 0 0x42) ∧
    (c4flash0.vset 0 0x42).get 0 = 0x42 ∧ c4flash0.get 0 = 0 :=
  ⟨c4go_stream c4flash0 (by decide), rfl, rfl⟩

/-- C4 (amended): a HEX parse failure is surfaced as a string error to
the caller and the failing record itself writes nothing (checksum is
verified before any store), but records **before** the failing line
have already been streamed into the flash buffer and are not rolled
back.  Conjunct 1: any bad-checksum record returns the error with the
flash exactly as it was when that line was reached.  Conjunct 2: on the
two-line image whose second line has a bad checksum, the error is
returned with the first record's byte already written. -/
theorem c4_parse_hex_error_no_rollback :
    (∀ (line : List Char) (rest : List (List Char)) (max_addr base_addr : Nat)
        (flash : ByteBuf) (body : List Char) (bytes : List Nat),
      trimChars line = ':' :: body →
      hex_line_to_bytes body = Except.ok bytes →
      5 ≤ bytes.length →
      bytes.foldl (fun acc b => (acc + b) % 256) 0 ≠ 0 →
      parse_hex_go (line :: rest) max_addr base_addr flash =
        some (Except.error ("Checksum error: sum="
          ++ toString (bytes.foldl (fun acc b => (acc + b) % 256) 0)), flash)) ∧
    (∀ flash : ByteBuf, 0 < flash.size →
      parse_hex ":0100000042BD\n:00000001FE" flash =
        some (Except.error "Checksum error: sum=255", flash.vset 0 0x42)) :=
  ⟨c4go_checksum_error, c4go_stream⟩

/-- Witness for C4 at the concrete bad-checksum EOF record over the
all-zero flash: the error is returned and the flash comes back exactly
as passed in. -/
theorem c4_parse_hex_error_no_rollback_witness :
    parse_hex_go [":00000001FE".toList] 7 0 c4flash0 =
      some (Except.error "Checksum error: sum=255", c4flash0) :=
  c4_parse_hex_error_no_rollback.1 ":00000001FE".toList [] 7 0 c4flash0
    "00000001FE".toList [0, 0, 0, 1, 0xFE] rfl rfl (by norm_num) (by norm_num)

/-!
### C2: interrupt gating and entry effects
-/




lemma wsub16_one (a : Nat) (h : 0x60 < a % 65536) : wsub16 a 1 = a % 65536 - 1 := by
  unfold wsub16; omega

lemma wsub16_two_eq (a : Nat) : wsub16 (wsub16 a 1) 1 = wsub16 a 2 := by
  unfold wsub16; omega

lemma do_interrupt_eq (cpu : Cpu) (data : ByteBuf) (vec : Nat)
    (hA : cpu.sp % 65536 < data.size) (hB : wsub16 cpu.sp 1 < data.size)
    (hC : SPH_ADDR < data.size) (hD : SPL_ADDR < data.size)
    (hE : SREG_ADDR < data.size) :
    do_interrupt cpu data vec =
      some ({ cpu with pc := vec % 65536, sp := wsub16 (wsub16 cpu.sp 1) 1,
                       sreg := cpu.sreg % 256 % 128,
                       tick := (cpu.tick + 5) % U64 },
        ((((data.vset (cpu.sp % 65536) (cpu.pc % 65536 / 256)).vset
            (wsub16 cpu.sp 1) (cpu.pc % 65536 % 256)).vset
            SPH_ADDR (wsub16 (wsub16 cpu.sp 1) 1 / 256)).vset
            SPL_ADDR (wsub16 (wsub16 cpu.sp 1) 1 % 256)).vset
            SREG_ADDR (cpu.sreg % 256 % 128)) := by
  simp only [do_interrupt, ByteBuf.vsetChecked]
  rw [if_pos hA]
  simp only [Option.bind, vset_size]
  rw [if_pos hB]
  simp only [Option.bind, vset_size]
  rw [if_pos hC]
  simp only [Option.bind, vset_size]
  rw [if_pos hD]
  simp only [Option.bind, vset_size]
  rw [if_pos hE]

lemma do_interrupt_none (cpu : Cpu) (data : ByteBuf) (vec : Nat)
    (hn : ¬ (cpu.sp % 65536 < data.size ∧ wsub16 cpu.sp 1 < data.size ∧
      SPH_ADDR < data.size ∧ SPL_ADDR < data.size ∧ SREG_ADDR < data.size)) :
    do_interrupt cpu data vec = none := by
  simp only [do_interrupt, ByteBuf.vsetChecked]
  by_cases hA : cpu.sp % 65536 < data.size
  case neg => rw [if_neg hA]; rfl
  rw [if_pos hA]
  simp only [Option.bind, vset_size]
  by_cases hB : wsub16 cpu.sp 1 < data.size
  case neg => rw [if_neg hB]
  rw [if_pos hB]
  simp only [Option.bind, vset_size]
  by_cases hC : SPH_ADDR < data.size
  case neg => rw [if_neg hC]
  rw [if_pos hC]
  simp only [Option.bind, vset_size]
  by_cases hD : SPL_ADDR < data.size
  case neg => rw [if_neg hD]
  rw [if_pos hD]
  simp only [Option.bind, vset_size]
  by_cases hE : SREG_ADDR < data.size
  case neg => rw [if_neg hE]
  exact absurd ⟨hA, hB, hC, hD, hE⟩ hn

lemma do_interrupt_spec (cpu : Cpu) (data : ByteBuf) (vec : Nat)
    (c' : Cpu) (d' : ByteBuf)
    (hsp : 0x60 < cpu.sp % 65536)
    (h : do_interrupt cpu data vec = some (c', d')) :
    c'.pc = vec % 65536 ∧ c'.sreg = cpu.sreg % 256 % 128 ∧
    c'.sp = wsub16 cpu.sp 2 ∧ c'.tick = (cpu.tick + 5) % U64 ∧
    c'.sleeping = cpu.sleeping ∧
    d'.get (cpu.sp % 65536) = cpu.pc % 65536 / 256 ∧
    d'.get (wsub16 cpu.sp 1) = cpu.pc % 65536 % 256 ∧
    d'.get SPH_ADDR = wsub16 cpu.sp 2 / 256 ∧
    d'.get SPL_ADDR = wsub16 cpu.sp 2 % 256 ∧
    d'.get SREG_ADDR = cpu.sreg % 256 % 128 := by
  have h1 := wsub16_one cpu.sp hsp
  by_cases hall : cpu.sp % 65536 < data.size ∧ wsub16 cpu.sp 1 < data.size ∧
      SPH_ADDR < data.size ∧ SPL_ADDR < data.size ∧ SREG_ADDR < data.size
  · obtain ⟨hA, hB, hC, hD, hE⟩ := hall
    rw [do_interrupt_eq cpu data vec hA hB hC hD hE, Option.some.injEq,
      Prod.mk.injEq] at h
    obtain ⟨hc, hd⟩ := h
    subst hc hd
    rw [wsub16_two_eq]
    refine ⟨rfl, rfl, rfl, rfl, rfl, ?_, ?_, ?_, ?_, ?_⟩
    · rw [vset_get_ne _ _ _ _ (by unfold SREG_ADDR; omega),
          vset_get_ne _ _ _ _ (by unfold SPL_ADDR; omega),
          vset_get_ne _ _ _ _ (by unfold SPH_ADDR; omega),
          vset_get_ne _ _ _ _ (by omega), vset_get_eq]
    · rw [vset_get_ne _ _ _ _ (by unfold SREG_ADDR; omega),
          vset_get_ne _ _ _ _ (by unfold SPL_ADDR; omega),
          vset_get_ne _ _ _ _ (by unfold SPH_ADDR; omega), vset_get_eq]
    · rw [vset_get_ne _ _ _ _ (by unfold SPH_ADDR SREG_ADDR; omega),
          vset_get_ne _ _ _ _ (by unfold SPH_ADDR SPL_ADDR; omega), vset_get_eq]
    · rw [vset_get_ne _ _ _ _ (by unfold SPL_ADDR SREG_ADDR; omega), vset_get_eq]
    · rw [vset_get_eq]
  · rw [do_interrupt_none cpu data vec hall] at h
    exact absurd h (by simp)

lemma dispatch_spec (s1 : System) (vec : Nat) (s2 : System) (w : Option Nat)
    (hsp : 0x60 < s1.cpu.sp % 65536)
    (h : s1.dispatch vec = some (s2, w)) :
    w = some vec ∧ entryEffects s1.cpu s2 vec := by
  simp only [System.dispatch] at h
  cases hdo : do_interrupt ⟨s1.cpu.pc, s1.cpu.sp, s1.cpu.sreg, s1.cpu.tick, false⟩
      s1.data vec with
  | none => rw [hdo] at h; exact absurd h (by simp)
  | some cd =>
    obtain ⟨c2, d2⟩ := cd
    rw [hdo] at h
    simp only [Option.some.injEq, Prod.mk.injEq] at h
    obtain ⟨hs2, hw⟩ := h
    have hspec := do_interrupt_spec ⟨s1.cpu.pc, s1.cpu.sp, s1.cpu.sreg, s1.cpu.tick, false⟩
      s1.data vec c2 d2 hsp hdo
    refine ⟨hw.symm, ?_⟩
    rw [← hs2]
    exact hspec


lemma stepTimer0_spec (ie : Bool) (tick : Nat) (s s2 : System) (w : Option Nat)
    (hsp : 0x60 < s.cpu.sp % 65536)
    (h : s.stepTimer0 ie tick = some (s2, w)) :
    (w = none ∧ s2.cpu = s.cpu) ∨
    (ie = true ∧ ∃ v, w = some v ∧ entryEffects s.cpu s2 v) := by
  simp only [System.stepTimer0] at h
  cases hu : Timer8.update s.timer0 tick s.data with
  | none => rw [hu] at h; exact absurd h (by simp)
  | some td =>
    obtain ⟨t, d⟩ := td
    rw [hu] at h
    cases ie with
    | false =>
      simp only [Bool.false_eq_true, if_false, Option.some.injEq, Prod.mk.injEq] at h
      exact Or.inl ⟨h.2.symm, by rw [← h.1]⟩
    | true =>
      simp only [eq_self_iff_true, if_true] at h
      cases hvq : (Timer8.check_interrupt t).2 with
      | none =>
        rw [hvq] at h
        simp only [Option.some.injEq, Prod.mk.injEq] at h
        exact Or.inl ⟨h.2.symm, by rw [← h.1]⟩
      | some vec =>
        rw [hvq] at h
        simp only [] at h
        have hd := dispatch_spec
          { s with timer0 := (Timer8.check_interrupt t).1, data := d }
          vec s2 w hsp h
        exact Or.inr ⟨rfl, vec, hd.1, hd.2⟩

lemma stepTimer1_spec (ie : Bool) (tick : Nat) (s s2 : System) (w : Option Nat)
    (hsp : 0x60 < s.cpu.sp % 65536)
    (h : s.stepTimer1 ie tick = some (s2, w)) :
    (w = none ∧ s2.cpu = s.cpu) ∨
    (ie = true ∧ ∃ v, w = some v ∧ entryEffects s.cpu s2 v) := by
  simp only [System.stepTimer1] at h
  cases hu : Timer16.update s.timer1 tick s.data with
  | none => rw [hu] at h; exact absurd h (by simp)
  | some td =>
    obtain ⟨t, d⟩ := td
    rw [hu] at h
    cases ie with
    | false =>
      simp only [Bool.false_eq_true, if_false, Option.some.injEq, Prod.mk.injEq] at h
      exact Or.inl ⟨h.2.symm, by rw [← h.1]⟩
    | true =>
      simp only [eq_self_iff_true, if_true] at h
      cases hvq : (Timer16.check_interrupt t).2 with
      | none =>
        rw [hvq] at h
        simp only [Option.some.injEq, Prod.mk.injEq] at h
        exact Or.inl ⟨h.2.symm, by rw [← h.1]⟩
      | some vec =>
        rw [hvq] at h
        simp only [] at h
        have hd := dispatch_spec
          { s with timer1 := (Timer16.check_interrupt t).1, data := d }
          vec s2 w hsp h
        exact Or.inr ⟨rfl, vec, hd.1, hd.2⟩

lemma stepTimer3_spec (ie : Bool) (tick : Nat) (s s2 : System) (w : Option Nat)
    (hsp : 0x60 < s.cpu.sp % 65536)
    (h : s.stepTimer3 ie tick = some (s2, w)) :
    (w = none ∧ s2.cpu = s.cpu) ∨
    (ie = true ∧ ∃ v, w = some v ∧ entryEffects s.cpu s2 v) := by
  simp only [System.stepTimer3] at h
  by_cases hct : s.cpu_type = CpuType.Atmega32u4
  case neg =>
    rw [if_neg hct] at h
    simp only [Option.some.injEq, Prod.mk.injEq] at h
    exact Or.inl ⟨h.2.symm, by rw [← h.1]⟩
  rw [if_pos hct] at h
  cases hu : Timer16.update s.timer3 tick s.data with
  | none => rw [hu] at h; exact absurd h (by simp)
  | some td =>
    obtain ⟨t, d⟩ := td
    rw [hu] at h
    cases ie with
    | false =>
      simp only [Bool.false_eq_true, if_false, Option.some.injEq, Prod.mk.injEq] at h
      exact Or.inl ⟨h.2.symm, by rw [← h.1]⟩
    | true =>
      simp only [eq_self_iff_true, if_true] at h
      cases hvq : (Timer16.check_interrupt t).2 with
      | none =>
        rw [hvq] at h
        simp only [Option.some.injEq, Prod.mk.injEq] at h
        exact Or.inl ⟨h.2.symm, by rw [← h.1]⟩
      | some vec =>
        rw [hvq] at h
        simp only [] at h
        have hd := dispatch_spec
          { s with timer3 := (Timer16.check_interrupt t).1, data := d }
          vec s2 w hsp h
        exact Or.inr ⟨rfl, vec, hd.1, hd.2⟩

lemma stepTimer4_spec (ie : Bool) (tick : Nat) (s s2 : System) (w : Option Nat)
    (hsp : 0x60 < s.cpu.sp % 65536)
    (h : s.stepTimer4 ie tick = some (s2, w)) :
    (w = none ∧ s2.cpu = s.cpu) ∨
    (ie = true ∧ ∃ v, w = some v ∧ entryEffects s.cpu s2 v) := by
  simp only [System.stepTimer4] at h
  by_cases hct : s.cpu_type = CpuType.Atmega32u4
  case neg =>
    rw [if_neg hct] at h
    simp only [Option.some.injEq, Prod.mk.injEq] at h
    exact Or.inl ⟨h.2.symm, by rw [← h.1]⟩
  rw [if_pos hct] at h
  cases ie with
  | false =>
    simp only [Bool.false_eq_true, if_false, Option.some.injEq, Prod.mk.injEq] at h
    exact Or.inl ⟨h.2.symm, by rw [← h.1]⟩
  | true =>
    simp only [eq_self_iff_true, if_true] at h
    cases hvq : (Timer4.check_interrupt (Timer4.update s.timer4 tick)).2 with
    | none =>
      rw [hvq] at h
      simp only [Option.some.injEq, Prod.mk.injEq] at h
      exact Or.inl ⟨h.2.symm, by rw [← h.1]⟩
    | some vec =>
      rw [hvq] at h
      simp only [] at h
      have hd := dispatch_spec
        { s with timer4 := (Timer4.check_interrupt (Timer4.update s.timer4 tick)).1 }
        vec s2 w hsp h
      exact Or.inr ⟨rfl, vec, hd.1, hd.2⟩

lemma stepTimer2_spec (ie : Bool) (tick : Nat) (s s2 : System) (w : Option Nat)
    (hsp : 0x60 < s.cpu.sp % 65536)
    (h : s.stepTimer2 ie tick = some (s2, w)) :
    (w = none ∧ s2.cpu = s.cpu) ∨
    (ie = true ∧ ∃ v, w = some v ∧ entryEffects s.cpu s2 v) := by
  simp only [System.stepTimer2] at h
  by_cases hct : s.cpu_type = CpuType.Atmega328p
  case neg =>
    rw [if_neg hct] at h
    simp only [Option.some.injEq, Prod.mk.injEq] at h
    exact Or.inl ⟨h.2.symm, by rw [← h.1]⟩
  rw [if_pos hct] at h
  cases hu : Timer8.update s.timer2 tick s.data with
  | none => rw [hu] at h; exact absurd h (by simp)
  | some td =>
    obtain ⟨t, d⟩ := td
    rw [hu] at h
    cases ie with
    | false =>
      simp only [Bool.false_eq_true, if_false, Option.some.injEq, Prod.mk.injEq] at h
      exact Or.inl ⟨h.2.symm, by rw [← h.1]⟩
    | true =>
      simp only [eq_self_iff_true, if_true] at h
      cases hvq : (Timer8.check_interrupt t).2 with
      | none =>
        rw [hvq] at h
        simp only [Option.some.injEq, Prod.mk.injEq] at h
        exact Or.inl ⟨h.2.symm, by rw [← h.1]⟩
      | some vec =>
        rw [hvq] at h
        simp only [] at h
        have hd := dispatch_spec
          { s with timer2 := (Timer8.check_interrupt t).1, data := d }
          vec s2 w hsp h
        exact Or.inr ⟨rfl, vec, hd.1, hd.2⟩

lemma stepSpi_spec (ie : Bool) (s s2 : System) (w : Option Nat)
    (hsp : 0x60 < s.cpu.sp % 65536)
    (h : s.stepSpi ie = some (s2, w)) :
    (w = none ∧ s2.cpu = s.cpu) ∨
    (ie = true ∧ ∃ v, w = some v ∧ entryEffects s.cpu s2 v) := by
  simp only [System.stepSpi] at h
  cases ie with
  | false =>
    simp only [Bool.false_eq_true, if_false, Option.some.injEq, Prod.mk.injEq] at h
    exact Or.inl ⟨h.2.symm, by rw [← h.1]⟩
  | true =>
    simp only [eq_self_iff_true, if_true] at h
    cases hvq : (Spi.check_interrupt s.spi).2 with
    | none =>
      rw [hvq] at h
      simp only [Option.some.injEq, Prod.mk.injEq] at h
      exact Or.inl ⟨h.2.symm, by rw [← h.1]⟩
    | some vec =>
      rw [hvq] at h
      simp only [] at h
      have hd := dispatch_spec
        { s with spi := (Spi.check_interrupt s.spi).1 }
        vec s2 w hsp h
      exact Or.inr ⟨rfl, vec, hd.1, hd.2⟩

lemma stepUsart_spec (ie : Bool) (s s2 : System) (w : Option Nat)
    (hsp : 0x60 < s.cpu.sp % 65536)
    (h : s.stepUsart ie = some (s2, w)) :
    (w = none ∧ s2.cpu = s.cpu) ∨
    (ie = true ∧ ∃ v, w = some v ∧ entryEffects s.cpu s2 v) := by
  simp only [System.stepUsart] at h
  by_cases hg : (ie = true ∧ s.cpu_type = CpuType.Atmega328p)
  case neg =>
    rw [if_neg hg] at h
    simp only [Option.some.injEq, Prod.mk.injEq] at h
    exact Or.inl ⟨h.2.symm, by rw [← h.1]⟩
  rw [if_pos hg] at h
  by_cases h1 : (bitB (s.data.get 0xC1 % 256) 5 = true ∧ bitB (s.data.get 0xC0 % 256) 5 = true)
  · rw [if_pos h1] at h
    have hd := dispatch_spec s INT_328P_USART_UDRE s2 w hsp h
    exact Or.inr ⟨hg.1, INT_328P_USART_UDRE, hd.1, hd.2⟩
  rw [if_neg h1] at h
  by_cases h2 : (bitB (s.data.get 0xC1 % 256) 6 = true ∧ bitB (s.data.get 0xC0 % 256) 6 = true)
  · rw [if_pos h2] at h
    cases hm : s.data.vsetChecked 0xC0 (clearBit8 (s.data.get 0xC0) 6) with
    | none => rw [hm] at h; exact absurd h (by simp)
    | some d2 =>
      rw [hm] at h
      simp only [] at h
      have hd := dispatch_spec { s with data := d2 } INT_328P_USART_TX s2 w hsp h
      exact Or.inr ⟨hg.1, INT_328P_USART_TX, hd.1, hd.2⟩
  rw [if_neg h2] at h
  by_cases h3 : (bitB (s.data.get 0xC1 % 256) 7 = true ∧ bitB (s.data.get 0xC0 % 256) 7 = true)
  · rw [if_pos h3] at h
    have hd := dispatch_spec s INT_328P_USART_RX s2 w hsp h
    exact Or.inr ⟨hg.1, INT_328P_USART_RX, hd.1, hd.2⟩
  rw [if_neg h3] at h
  simp only [Option.some.injEq, Prod.mk.injEq] at h
  exact Or.inl ⟨h.2.symm, by rw [← h.1]⟩

lemma stepAdc_spec (ie : Bool) (s s2 : System) (w : Option Nat)
    (hsp : 0x60 < s.cpu.sp % 65536)
    (h : s.stepAdc ie = some (s2, w)) :
    (w = none ∧ s2.cpu = s.cpu) ∨
    (ie = true ∧ ∃ v, w = some v ∧ entryEffects s.cpu s2 v) := by
  simp only [System.stepAdc] at h
  cases ie with
  | false =>
    simp only [Bool.false_eq_true, if_false, Option.some.injEq, Prod.mk.injEq] at h
    exact Or.inl ⟨h.2.symm, by rw [← h.1]⟩
  | true =>
    simp only [eq_self_iff_true, if_true] at h
    cases hvq : (Adc.check_interrupt (Adc.update s.adc s.rng_state).1).2 with
    | none =>
      rw [hvq] at h
      simp only [Option.some.injEq, Prod.mk.injEq] at h
      exact Or.inl ⟨h.2.symm, by rw [← h.1]⟩
    | some vec =>
      rw [hvq] at h
      simp only [] at h
      have hd := dispatch_spec
        { s with adc := (Adc.check_interrupt (Adc.update s.adc s.rng_state).1).1,
                 rng_state := (Adc.update s.adc s.rng_state).2 }
        vec s2 w hsp h
      exact Or.inr ⟨rfl, vec, hd.1, hd.2⟩

lemma tryChain_some (r : Option (System × Option Nat))
    (next : System → Option (System × Option Nat)) (s' : System) (v : Nat)
    (h : tryChain r next = some (s', some v)) :
    r = some (s', some v) ∨ (∃ s1, r = some (s1, none) ∧ next s1 = some (s', some v)) := by
  cases r with
  | none => exact absurd h (by simp [tryChain])
  | some p =>
    obtain ⟨sA, wA⟩ := p
    cases wA with
    | none => exact Or.inr ⟨sA, rfl, h⟩
    | some vA => exact Or.inl h

lemma update_peripherals_entry (s s' : System) (v : Nat)
    (hsp : 0x60 < s.cpu.sp % 65536)
    (h0 : s.update_peripherals = some (s', some v)) :
    bitB (s.cpu.sreg % 256) SREG_I = true ∧ entryEffects s.cpu s' v := by
  simp only [System.update_peripherals] at h0
  have hc0 : s.cpu = s.cpu := rfl
  have hsp0 : 0x60 < s.cpu.sp % 65536 := by rw [hc0]; exact hsp
  rcases tryChain_some _ _ _ _ h0 with hf0 | ⟨s1, hp0, h1⟩
  · rcases stepTimer0_spec _ _ _ _ _ hsp0 hf0 with ⟨hw, _⟩ | ⟨hie, u, hu, he⟩
    · exact absurd hw (by simp)
    · injection hu with huv; subst huv; rw [hc0] at he; exact ⟨hie, he⟩
  have hc1 : s1.cpu = s.cpu := by
    rcases stepTimer0_spec _ _ _ _ _ hsp0 hp0 with ⟨_, hcc⟩ | ⟨_, u, hu, _⟩
    · exact hcc.trans hc0
    · exact absurd hu (by simp)
  have hsp1 : 0x60 < s1.cpu.sp % 65536 := by rw [hc1]; exact hsp
  rcases tryChain_some _ _ _ _ h1 with hf1 | ⟨s2, hp1, h2⟩
  · rcases stepTimer1_spec _ _ _ _ _ hsp1 hf1 with ⟨hw, _⟩ | ⟨hie, u, hu, he⟩
    · exact absurd hw (by simp)
    · injection hu with huv; subst huv; rw [hc1] at he; exact ⟨hie, he⟩
  have hc2 : s2.cpu = s.cpu := by
    rcases stepTimer1_spec _ _ _ _ _ hsp1 hp1 with ⟨_, hcc⟩ | ⟨_, u, hu, _⟩
    · exact hcc.trans hc1
    · exact absurd hu (by simp)
  have hsp2 : 0x60 < s2.cpu.sp % 65536 := by rw [hc2]; exact hsp
  rcases tryChain_some _ _ _ _ h2 with hf2 | ⟨s3, hp2, h3⟩
  · rcases stepTimer3_spec _ _ _ _ _ hsp2 hf2 with ⟨hw, _⟩ | ⟨hie, u, hu, he⟩
    · exact absurd hw (by simp)
    · injection hu with huv; subst huv; rw [hc2] at he; exact ⟨hie, he⟩
  have hc3 : s3.cpu = s.cpu := by
    rcases stepTimer3_spec _ _ _ _ _ hsp2 hp2 with ⟨_, hcc⟩ | ⟨_, u, hu, _⟩
    · exact hcc.trans hc2
    · exact absurd hu (by simp)
  have hsp3 : 0x60 < s3.cpu.sp % 65536 := by rw [hc3]; exact hsp
  rcases tryChain_some _ _ _ _ h3 with hf3 | ⟨s4, hp3, h4⟩
  · rcases stepTimer4_spec _ _ _ _ _ hsp3 hf3 with ⟨hw, _⟩ | ⟨hie, u, hu, he⟩
    · exact absurd hw (by simp)
    · injection hu with huv; subst huv; rw [hc3] at he; exact ⟨hie, he⟩
  have hc4 : s4.cpu = s.cpu := by
    rcases stepTimer4_spec _ _ _ _ _ hsp3 hp3 with ⟨_, hcc⟩ | ⟨_, u, hu, _⟩
    · exact hcc.trans hc3
    · exact absurd hu (by simp)
  have hsp4 : 0x60 < s4.cpu.sp % 65536 := by rw [hc4]; exact hsp
  rcases tryChain_some _ _ _ _ h4 with hf4 | ⟨s5, hp4, h5⟩
  · rcases stepTimer2_spec _ _ _ _ _ hsp4 hf4 with ⟨hw, _⟩ | ⟨hie, u, hu, he⟩
    · exact absurd hw (by simp)
    · injection hu with huv; subst huv; rw [hc4] at he; exact ⟨hie, he⟩
  have hc5 : s5.cpu = s.cpu := by
    rcases stepTimer2_spec _ _ _ _ _ hsp4 hp4 with ⟨_, hcc⟩ | ⟨_, u, hu, _⟩
    · exact hcc.trans hc4
    · exact absurd hu (by simp)
  have hsp5 : 0x60 < s5.cpu.sp % 65536 := by rw [hc5]; exact hsp
  rcases tryChain_some _ _ _ _ h5 with hf5 | ⟨s6, hp5, h6⟩
  · rcases stepSpi_spec _ _ _ _ hsp5 hf5 with ⟨hw, _⟩ | ⟨hie, u, hu, he⟩
    · exact absurd hw (by simp)
    · injection hu with huv; subst huv; rw [hc5] at he; exact ⟨hie, he⟩
  have hc6 : s6.cpu = s.cpu := by
    rcases stepSpi_spec _ _ _ _ hsp5 hp5 with ⟨_, hcc⟩ | ⟨_, u, hu, _⟩
    · exact hcc.trans hc5
    · exact absurd hu (by simp)
  have hsp6 : 0x60 < s6.cpu.sp % 65536 := by rw [hc6]; exact hsp
  rcases tryChain_some _ _ _ _ h6 with hf6 | ⟨s7, hp6, h7⟩
  · rcases stepUsart_spec _ _ _ _ hsp6 hf6 with ⟨hw, _⟩ | ⟨hie, u, hu, he⟩
    · exact absurd hw (by simp)
    · injection hu with huv; subst huv; rw [hc6] at he; exact ⟨hie, he⟩
  have hc7 : s7.cpu = s.cpu := by
    rcases stepUsart_spec _ _ _ _ hsp6 hp6 with ⟨_, hcc⟩ | ⟨_, u, hu, _⟩
    · exact hcc.trans hc6
    · exact absurd hu (by simp)
  have hsp7 : 0x60 < s7.cpu.sp % 65536 := by rw [hc7]; exact hsp
  rcases stepAdc_spec _ _ _ _ hsp7 h7 with ⟨hw, _⟩ | ⟨hie, u, hu, he⟩
  · exact absurd hw (by simp)
  · injection hu with huv; subst huv; rw [hc7] at he; exact ⟨hie, he⟩

lemma timer8_gating (t : Timer8) (v : Nat)
    (h : (Timer8.check_interrupt t).2 = some v) :
    (0 < t.ocf0a ∧ t.ocie0a = true) ∨ (0 < t.ocf0b ∧ t.ocie0b = true) ∨
    (0 < t.tov0 ∧ t.toie0 = true) := by
  simp only [Timer8.check_interrupt] at h
  split_ifs at h with h1 h2 h3
  · exact Or.inl h1
  · exact Or.inr (Or.inl h2)
  · exact Or.inr (Or.inr h3)

lemma timer16_gating (t : Timer16) (v : Nat)
    (h : (Timer16.check_interrupt t).2 = some v) :
    (0 < t.ocf_a ∧ t.ocie_a = true) ∨ (0 < t.ocf_b ∧ t.ocie_b = true) ∨
    (0 < t.ocf_c ∧ t.ocie_c = true) ∨ (0 < t.tov ∧ t.toie = true) := by
  simp only [Timer16.check_interrupt] at h
  split_ifs at h with h1 h2 h3 h4
  · exact Or.inl ⟨h1.1, h1.2.1⟩
  · exact Or.inr (Or.inl ⟨h2.1, h2.2.1⟩)
  · exact Or.inr (Or.inr (Or.inl ⟨h3.1, h3.2.1⟩))
  · exact Or.inr (Or.inr (Or.inr h4))

lemma timer4_gating (t : Timer4) (v : Nat)
    (h : (Timer4.check_interrupt t).2 = some v) :
    (0 < t.ocf_a ∧ bitB (t.timsk % 256) 6 = true) ∨
    (0 < t.ocf_b ∧ bitB (t.timsk % 256) 5 = true) ∨
    (0 < t.ocf_d ∧ bitB (t.timsk % 256) 7 = true) ∨
    (0 < t.tov ∧ bitB (t.timsk % 256) 2 = true) := by
  simp only [Timer4.check_interrupt] at h
  split_ifs at h with h1 h2 h3 h4
  · exact Or.inl h1
  · exact Or.inr (Or.inl h2)
  · exact Or.inr (Or.inr (Or.inl h3))
  · exact Or.inr (Or.inr (Or.inr h4))

lemma spi_gating (p : Spi) (v : Nat)
    (h : (Spi.check_interrupt p).2 = some v) : p.spif = true ∧ p.spie = true := by
  simp only [Spi.check_interrupt] at h
  split_ifs at h with h1
  exact h1

lemma adc_gating (a : Adc) (v : Nat)
    (h : (Adc.check_interrupt a).2 = some v) : a.adif = true ∧ a.adie = true := by
  simp only [Adc.check_interrupt] at h
  split_ifs at h with h1
  exact h1


/-- C2: a peripheral interrupt is delivered only when its pending-flag
count and its enable bit are set (conjuncts 1–5: the 8-bit timers, the
16-bit timers, Timer4, SPI and the ADC fire only with a positive
pending count and the matching enable bit), and only when the global
interrupt-enable flag (SREG bit I, sampled on entry to
`update_peripherals`) is set; on delivery the system pushes the current
PC with its low byte at the lower stack address (the CALL order),
clears the I flag together with its 0x5F mirror, updates the SPH/SPL
mirrors, sets PC to the vector, adds exactly 5 cycles to the tick
counter and clears the sleeping flag (conjunct 6, for every SP above
the I/O mirror region so the pushed bytes are not themselves
overwritten by the mirror stores). -/
theorem c2_interrupt_delivery :
    (∀ (t : Timer8) (v : Nat), (Timer8.check_interrupt t).2 = some v →
      (0 < t.ocf0a ∧ t.ocie0a = true) ∨ (0 < t.ocf0b ∧ t.ocie0b = true) ∨
      (0 < t.tov0 ∧ t.toie0 = true)) ∧
    (∀ (t : Timer16) (v : Nat), (Timer16.check_interrupt t).2 = some v →
      (0 < t.ocf_a ∧ t.ocie_a = true) ∨ (0 < t.ocf_b ∧ t.ocie_b = true) ∨
      (0 < t.ocf_c ∧ t.ocie_c = true) ∨ (0 < t.tov ∧ t.toie = true)) ∧
    (∀ (t : Timer4) (v : Nat), (Timer4.check_interrupt t).2 = some v →
      (0 < t.ocf_a ∧ bitB (t.timsk % 256) 6 = true) ∨
      (0 < t.ocf_b ∧ bitB (t.timsk % 256) 5 = true) ∨
      (0 < t.ocf_d ∧ bitB (t.timsk % 256) 7 = true) ∨
      (0 < t.tov ∧ bitB (t.timsk % 256) 2 = true)) ∧
    (∀ (p : Spi) (v : Nat), (Spi.check_interrupt p).2 = some v →
      p.spif = true ∧ p.spie = true) ∧
    (∀ (a : Adc) (v : Nat), (Adc.check_interrupt a).2 = some v →
      a.adif = true ∧ a.adie = true) ∧
    (∀ (s s' : System) (v : Nat), 0x60 < s.cpu.sp % 65536 →
      s.update_peripherals = some (s', some v) →
      bitB (s.cpu.sreg % 256) SREG_I = true ∧ entryEffects s.cpu s' v) :=
  ⟨timer8_gating, timer16_gating, timer4_gating, spi_gating, adc_gating,
   fun s s2 v hsp h => update_peripherals_entry s s2 v hsp h⟩

/-- Witness for C2 at the concrete system `c2sys` (SP = 0x0AFF, I flag
set, one pending enabled Timer0 compare-A interrupt): the
`update_peripherals` pass dispatches vector 0x2A, the I flag was set,
and the entry effects hold. -/
theorem c2_interrupt_delivery_witness :
    c2sys.update_peripherals = some (c2out.1, some 0x2A) ∧
    bitB (c2sys.cpu.sreg % 256) SREG_I = true ∧
    (c2out.1).cpu.pc = 0x2A % 65536 ∧
    (c2out.1).cpu.sleeping = false ∧
    (c2out.1).cpu.tick = (c2sys.cpu.tick + 5) % U64 :=
  have hup : c2sys.update_peripherals = some (c2out.1, some 0x2A) := rfl
  have h := c2_interrupt_delivery.2.2.2.2.2 c2sys (c2out.1) 0x2A (by decide) hup
  ⟨hup, h.1, h.2.1, h.2.2.2.2.2.1, h.2.2.2.2.1⟩

end AvrEmu


